import Mathlib

/-!
# CarbonAPI: the emission-calculation engine of `api/carbon_service.go`

A shallow embedding of the carbon service and the properties of its
calculation engine.

Modelling conventions.

* The engine is embedded twice.  In the first embedding `float64` quantities are
  exact rationals (`ℚ`) and `math.Round` is the nearest integer with halves away from
  zero: it carries the structure of the computation (which formula is applied, what
  the maps hold, which suggestions are made).  In the second embedding (the
  definitions ending in `64`) the footprint is computed in float64 arithmetic, with
  rounding to nearest, overflow to the infinities and NaN: it carries what depends on
  the arithmetic (sign, rounding to three decimals).
* `map[string]interface{}` literals are association lists in the order of the
  source literal (`GoMap`); the keys of each literal are distinct, so `List.lookup`
  is the map lookup.
* The database handle is a function from the query text and its arguments to the
  outcome of `QueryRow(...).Scan(...)`: a scanned row, or an error (no rows,
  connection failure, scan failure).
* The order in which `range` enumerates a map is chosen by the Go runtime; it is
  the explicit argument `rnd`.  `time.Now()` is the explicit argument `now`.
-/

namespace CarbonAPI

/-- Dynamic values stored under `interface{}`: numbers, strings and nested maps. -/
inductive Value where
  | num : ℚ → Value
  | str : String → Value
  | obj : List (String × Value) → Value

/-- The type `map[string]interface{}`. -/
abbrev GoMap := List (String × Value)

/-- The struct `CalculateRequest`. -/
structure CalculateRequest where
  Activity : String
  Weight : ℚ
  Distance : ℚ
  From : String
  To : String
  Transport : String
  Amount : ℚ
  Unit : String
  Metadata : GoMap

/-- The struct `CalculateResponse`; `Timestamp` is a clock reading. -/
structure CalculateResponse where
  CarbonFootprint : ℚ
  Unit : String
  Breakdown : GoMap
  Suggestions : List String
  Calculation : GoMap
  Timestamp : Nat

/-- The struct `EmissionFactor`. -/
structure EmissionFactor where
  ID : Int
  Activity : String
  TransportMode : String
  Factor : ℚ
  Unit : String
  Source : String

/-- The handle `*sql.DB`, as far as the engine uses it: the outcome of
`QueryRow(query, args...).Scan(...)`, a scanned row or an error. -/
structure DB where
  queryRowScan : String → List String → Except String EmissionFactor

/-- The struct `CarbonService` (the cache handle is never read by the engine). -/
structure CarbonService where
  db : DB

/-- The function `math.Round` as an integer: nearest integer, halves away from zero. -/
def roundHalfAway (x : ℚ) : ℤ :=
  if 0 ≤ x then ⌊x + 1 / 2⌋ else -⌊-x + 1 / 2⌋

/-- The function `math.Round`. -/
def mathRound (x : ℚ) : ℚ := (roundHalfAway x : ℚ)

/-- The first entry a `for ... range m` loop visits; the runtime picks the start. -/
def rangeFirst {α : Type} (rnd : Nat) (m : List (String × α)) : Option α :=
  (m.get? (rnd % m.length)).map Prod.snd

/-- The static table `distances` of `estimateDistance`. -/
def distances : List (String × List (String × ℚ)) :=
  [ ("NYC",
      [ ("London", 5585),
        ("Paris", 5837),
        ("Tokyo", 10847),
        ("Sydney", 15993),
        ("LosAngeles", 3944) ]),
    ("London",
      [ ("NYC", 5585),
        ("Paris", 344),
        ("Tokyo", 9561) ]),
    ("Paris",
      [ ("NYC", 5837),
        ("London", 344),
        ("Tokyo", 9714) ]) ]

/-- The method `estimateDistance`. -/
def estimateDistance (src dst : String) : ℚ :=
  match distances.lookup src with
  | some fromDistances =>
    match fromDistances.lookup dst with
    | some distance => distance
    | none => 1000
  | none => 1000

/-- The method `calculateShipping`. -/
def calculateShipping (req : CalculateRequest) (factor : EmissionFactor) :
    ℚ × GoMap × GoMap :=
  let distance := req.Distance
  let distance :=
    if distance = 0 ∧ req.From ≠ "" ∧ req.To ≠ "" then estimateDistance req.From req.To
    else distance
  let weightTonnes := req.Weight / 1000
  let carbonFootprint := weightTonnes * distance * factor.Factor
  let breakdown : GoMap :=
    [ ("weight_kg", .num req.Weight),
      ("weight_tonnes", .num weightTonnes),
      ("distance_km", .num distance),
      ("transport_mode", .str req.Transport),
      ("emission_factor", .num factor.Factor),
      ("from", .str req.From),
      ("to", .str req.To) ]
  let calculation : GoMap :=
    [ ("formula", .str "weight_tonnes × distance_km × emission_factor"),
      ("values", .obj breakdown),
      ("result", .num carbonFootprint) ]
  (carbonFootprint, breakdown, calculation)

/-- The method `calculateElectricity`. -/
def calculateElectricity (req : CalculateRequest) (factor : EmissionFactor) :
    ℚ × GoMap × GoMap :=
  let carbonFootprint := req.Amount * factor.Factor
  let breakdown : GoMap :=
    [ ("energy_kwh", .num req.Amount),
      ("energy_source", .str req.Transport),
      ("emission_factor", .num factor.Factor),
      ("grid_mix", .str "regional_average") ]
  let calculation : GoMap :=
    [ ("formula", .str "energy_kwh × emission_factor"),
      ("values", .obj breakdown),
      ("result", .num carbonFootprint) ]
  (carbonFootprint, breakdown, calculation)

/-- The method `calculateFuel`. -/
def calculateFuel (req : CalculateRequest) (factor : EmissionFactor) :
    ℚ × GoMap × GoMap :=
  let carbonFootprint := req.Amount * factor.Factor
  let breakdown : GoMap :=
    [ ("fuel_liters", .num req.Amount),
      ("fuel_type", .str req.Transport),
      ("emission_factor", .num factor.Factor),
      ("combustion", .str "direct_emissions") ]
  let calculation : GoMap :=
    [ ("formula", .str "fuel_liters × emission_factor"),
      ("values", .obj breakdown),
      ("result", .num carbonFootprint) ]
  (carbonFootprint, breakdown, calculation)

/-- The table `defaultFactors` of `getDefaultEmissionFactor`; the `ID` of a
composite literal that does not set it is the zero value. -/
def defaultFactors : List (String × List (String × EmissionFactor)) :=
  [ ("shipping",
      [ ("air", ⟨0, "shipping", "air", 0.996, "kg_co2e_per_tonne_km", "IPCC 2023"⟩),
        ("sea", ⟨0, "shipping", "sea", 0.015, "kg_co2e_per_tonne_km", "IPCC 2023"⟩),
        ("road", ⟨0, "shipping", "road", 0.209, "kg_co2e_per_tonne_km", "IPCC 2023"⟩),
        ("rail", ⟨0, "shipping", "rail", 0.028, "kg_co2e_per_tonne_km", "IPCC 2023"⟩) ]),
    ("electricity",
      [ ("grid", ⟨0, "electricity", "grid", 0.525, "kg_co2e_per_kwh", "IEA 2023"⟩),
        ("solar", ⟨0, "electricity", "solar", 0.041, "kg_co2e_per_kwh", "IPCC 2023"⟩),
        ("wind", ⟨0, "electricity", "wind", 0.011, "kg_co2e_per_kwh", "IPCC 2023"⟩) ]),
    ("fuel",
      [ ("gasoline", ⟨0, "fuel", "gasoline", 2.31, "kg_co2e_per_liter", "EPA 2023"⟩),
        ("diesel", ⟨0, "fuel", "diesel", 2.68, "kg_co2e_per_liter", "EPA 2023"⟩),
        ("natural_gas",
          ⟨0, "fuel", "natural_gas", 0.202, "kg_co2e_per_kwh", "EPA 2023"⟩) ]) ]

/-- The ultimate fallback of `getDefaultEmissionFactor`. -/
def ultimateFallback (activity transport : String) : EmissionFactor :=
  { ID := 0,
    Activity := activity,
    TransportMode := transport,
    Factor := 1.0,
    Unit := "kg_co2e_per_unit",
    Source := "Default" }

/-- The method `getDefaultEmissionFactor`. -/
def getDefaultEmissionFactor (rnd : Nat) (activity transport : String) : EmissionFactor :=
  match defaultFactors.lookup activity with
  | some activityFactors =>
    match activityFactors.lookup transport with
    | some factor => factor
    | none =>
      match rangeFirst rnd activityFactors with
      | some factor => factor
      | none => ultimateFallback activity transport
  | none => ultimateFallback activity transport

/-- The text of the query that `getEmissionFactor` starts from. -/
def baseQuery : String :=
  "\n\t\tSELECT id, activity, transport_mode, factor, unit, source \n\t\tFROM emission_factors \n\t\tWHERE activity = $1\n\t"

/-- The method `getEmissionFactor`. -/
def getEmissionFactor (cs : CarbonService) (rnd : Nat) (activity transport : String) :
    Except String EmissionFactor :=
  let query := baseQuery
  let args := [activity]
  let qa : String × List String :=
    if transport ≠ "" then (query ++ " AND transport_mode = $2", args ++ [transport])
    else (query, args)
  let query := qa.1 ++ " ORDER BY id LIMIT 1"
  match cs.db.queryRowScan query qa.2 with
  | .error _ => .ok (getDefaultEmissionFactor rnd activity transport)
  | .ok factor => .ok factor

/-- The method `generateSuggestions`. -/
def generateSuggestions (req : CalculateRequest) (carbonFootprint : ℚ) : List String :=
  let suggestions : List String := []
  let suggestions :=
    if req.Activity = "shipping" then
      let suggestions :=
        if req.Transport = "air" then
          suggestions ++ ["Consider sea freight to reduce emissions by 98%"]
            ++ ["Use rail transport when possible for 97% reduction"]
        else suggestions
      if req.Transport = "road" then
        suggestions ++ ["Switch to rail transport for 87% emissions reduction"]
          ++ ["Optimize routes to reduce distance"]
      else suggestions
    else if req.Activity = "electricity" then
      if req.Transport = "grid" then
        suggestions ++ ["Switch to renewable energy for 92% reduction"]
          ++ ["Install solar panels for clean energy"]
      else suggestions
    else if req.Activity = "fuel" then
      suggestions ++ ["Consider electric vehicles for zero direct emissions"]
        ++ ["Use biofuels to reduce carbon intensity"]
    else suggestions
  if carbonFootprint > 1000 then
    suggestions ++ ["This is a high-impact activity - consider carbon offsetting"]
  else suggestions

/-- The `switch req.Activity` of `calculateCarbonFootprint`: the raw footprint, the
breakdown and the calculation record of the formula the activity selects. -/
def formulaSwitch (req : CalculateRequest) (factor : EmissionFactor) : ℚ × GoMap × GoMap :=
  if req.Activity = "shipping" then calculateShipping req factor
  else if req.Activity = "electricity" then calculateElectricity req factor
  else if req.Activity = "fuel" then calculateFuel req factor
  else
    let carbonFootprint := req.Amount * factor.Factor
    let breakdown : GoMap :=
      [ ("activity", .str req.Activity),
        ("amount", .num req.Amount),
        ("factor", .num factor.Factor),
        ("unit", .str factor.Unit) ]
    let calculation : GoMap :=
      [ ("formula", .str "amount × emission_factor"),
        ("values", .obj breakdown) ]
    (carbonFootprint, breakdown, calculation)

/-- The method `calculateCarbonFootprint`. -/
def calculateCarbonFootprint (cs : CarbonService) (rnd now : Nat) (req : CalculateRequest) :
    Except String CalculateResponse :=
  match getEmissionFactor cs rnd req.Activity req.Transport with
  | .error err => .error err
  | .ok factor =>
    let r := formulaSwitch req factor
    let carbonFootprint := r.1
    let breakdown := r.2.1
    let calculation := r.2.2
    let suggestions := generateSuggestions req carbonFootprint
    .ok
      { CarbonFootprint := mathRound (carbonFootprint * 1000) / 1000,
        Unit := "kg_co2e",
        Breakdown := breakdown,
        Suggestions := suggestions,
        Calculation := calculation,
        Timestamp := now }

/-- A factor source that is unreachable: every query ends in an error. -/
def unavailableDB : DB := ⟨fun _ _ => .error "connection refused"⟩

/-! ## The handler and the factor source -/

/-- The query text that `getEmissionFactor` passes to `QueryRow`. -/
def issuedQuery (transport : String) : String :=
  (if transport ≠ "" then baseQuery ++ " AND transport_mode = $2" else baseQuery)
    ++ " ORDER BY id LIMIT 1"

/-- The arguments that `getEmissionFactor` passes to `QueryRow`. -/
def issuedArgs (activity transport : String) : List String :=
  if transport ≠ "" then [activity, transport] else [activity]

/-- A factor source holding the given rows of `emission_factors`, listed by
ascending `id`: the query filters on the activity, and on the transport mode when
one is passed, and `LIMIT 1` keeps the first row; no row is `sql.ErrNoRows`. -/
def rowsDB (rows : List EmissionFactor) : DB :=
  ⟨fun _ args =>
    match args with
    | [activity] =>
      match rows.find? (fun r => r.Activity = activity) with
      | some r => .ok r
      | none => .error "sql: no rows in result set"
    | [activity, transport] =>
      match rows.find? (fun r => r.Activity = activity ∧ r.TransportMode = transport) with
      | some r => .ok r
      | none => .error "sql: no rows in result set"
    | _ => .error "pq: wrong number of parameters"⟩

/-- The JSON bodies the handler sends: the error map with its message, or the
calculation result. -/
inductive Body where
  | error (message : String)
  | result (resp : CalculateResponse)

/-- The HTTP response of a handler: status code and body. -/
structure HttpResponse where
  status : Nat
  body : Body

/-- An error value that a handler returns to the framework: `fiberCode` is the code of
a `*fiber.Error`, absent for any other error; `message` is `err.Error()`. -/
structure HandlerError where
  fiberCode : Option Nat
  message : String

/-- The request context `*fiber.Ctx` as far as the handler uses it: the outcome of
`c.BodyParser(&req)`, the request header `User-ID`, and the JSON encoder that
`c.JSON` applies to the calculation result (it ends in an error for a value that JSON
cannot express). -/
structure Ctx where
  bodyParser : Except String CalculateRequest
  userID : Option String
  jsonEncoder : CalculateResponse → Except String String

/-- The calls the handler `CalculateCarbon` makes into the service, in order. -/
inductive Call where
  | calculateCarbonFootprint (req : CalculateRequest)
  | storeCalculation (req : CalculateRequest) (result : CalculateResponse)
  | trackAPIUsage (endpoint userID : String)

/-- The handler `CalculateCarbon`: the response it writes, or the error it returns
to the framework when `c.JSON(result)` cannot encode the result, together with the
calls made into the service. -/
def CalculateCarbon (cs : CarbonService) (rnd now : Nat) (c : Ctx) :
    Except HandlerError HttpResponse × List Call :=
  match c.bodyParser with
  | .error _ => (.ok ⟨400, .error "Invalid request format"⟩, [])
  | .ok req =>
    if req.Activity = "" then (.ok ⟨400, .error "Activity is required"⟩, [])
    else
      match calculateCarbonFootprint cs rnd now req with
      | .error _ =>
        (.ok ⟨500, .error "Failed to calculate carbon footprint"⟩,
          [.calculateCarbonFootprint req])
      | .ok result =>
        let calls : List Call :=
          [ .calculateCarbonFootprint req,
            .storeCalculation req result,
            .trackAPIUsage "calculate" (c.userID.getD "anonymous") ]
        match c.jsonEncoder result with
        | .error err => (.error ⟨none, err⟩, calls)
        | .ok _ => (.ok ⟨200, .result result⟩, calls)

/-- The `ErrorHandler` of `main.go`: status 500 unless the error is a `*fiber.Error`,
and the error map with the message of the error. -/
def ErrorHandler (err : HandlerError) : HttpResponse :=
  let code := 500
  let code := match err.fiberCode with
    | some e => e
    | none => code
  ⟨code, .error err.message⟩

/-- The response the client receives: the one the handler wrote, or the one of
`ErrorHandler` when the handler returned an error. -/
def respond (outcome : Except HandlerError HttpResponse) : HttpResponse :=
  match outcome with
  | .ok response => response
  | .error err => ErrorHandler err

/-! ## Definitions that follow the words of the specification -/

/-- The distance of a shipping request in the words of the specification: the
explicit distance when it is not zero, the estimate when it is zero and both place
names are given, zero otherwise. -/
def shippingDistance (req : CalculateRequest) : ℚ :=
  if req.Distance ≠ 0 then req.Distance
  else if req.From ≠ "" ∧ req.To ≠ "" then estimateDistance req.From req.To
  else 0

/-- The integer `n` is `x` rounded to the nearest integer with halves away from
zero: it is within one half of `x`, and at exactly one half it is the one of larger
magnitude. -/
def IsNearestHalfAway (x : ℚ) (n : ℤ) : Prop :=
  |(n : ℚ) - x| ≤ 1 / 2 ∧ (|(n : ℚ) - x| = 1 / 2 → |x| < |(n : ℚ)|)

/-- The activity-specific suggestions in the words of the specification, one rule per
(activity, mode) combination. -/
def activitySuggestions (activity transport : String) : List String :=
  if activity = "shipping" ∧ transport = "air" then
    [ "Consider sea freight to reduce emissions by 98%",
      "Use rail transport when possible for 97% reduction" ]
  else if activity = "shipping" ∧ transport = "road" then
    [ "Switch to rail transport for 87% emissions reduction",
      "Optimize routes to reduce distance" ]
  else if activity = "electricity" ∧ transport = "grid" then
    [ "Switch to renewable energy for 92% reduction",
      "Install solar panels for clean energy" ]
  else if activity = "fuel" then
    [ "Consider electric vehicles for zero direct emissions",
      "Use biofuels to reduce carbon intensity" ]
  else []

/-- The offsetting suggestion in the words of the specification: present exactly
when the footprint exceeds 1000. -/
def offsettingSuggestions (footprint : ℚ) : List String :=
  if footprint > 1000 then ["This is a high-impact activity - consider carbon offsetting"]
  else []

/-- The symbolic name of the formula of an activity, as the specification lists the
four variants. -/
def formulaName (activity : String) : String :=
  if activity = "shipping" then "weight_tonnes × distance_km × emission_factor"
  else if activity = "electricity" then "energy_kwh × emission_factor"
  else if activity = "fuel" then "fuel_liters × emission_factor"
  else "amount × emission_factor"

/-! ## Concrete requests and stored rows -/

/-- The shipping request of the worked example: 500 kg from NYC to London by air,
no explicit distance. -/
def nycLondonAir : CalculateRequest :=
  { Activity := "shipping", Weight := 500, Distance := 0, From := "NYC", To := "London",
    Transport := "air", Amount := 0, Unit := "", Metadata := [] }

/-- The electricity request of the worked example: 100 kWh from the grid. -/
def grid100 : CalculateRequest :=
  { Activity := "electricity", Weight := 0, Distance := 0, From := "", To := "",
    Transport := "grid", Amount := 100, Unit := "", Metadata := [] }

/-- The fuel request of the worked example: 50 litres of diesel. -/
def diesel50 : CalculateRequest :=
  { Activity := "fuel", Weight := 0, Distance := 0, From := "", To := "",
    Transport := "diesel", Amount := 50, Unit := "", Metadata := [] }

/-- The request of the worked example with an unknown activity and no mode. -/
def commute10 : CalculateRequest :=
  { Activity := "commute", Weight := 0, Distance := 0, From := "", To := "",
    Transport := "", Amount := 10, Unit := "", Metadata := [] }

/-- A parsed request without an activity. -/
def noActivity : CalculateRequest :=
  { Activity := "", Weight := 0, Distance := 0, From := "", To := "",
    Transport := "", Amount := 10, Unit := "", Metadata := [] }

/-- A shipping request with no mode: one tonne over 1000 km. -/
def shippingNoMode : CalculateRequest :=
  { Activity := "shipping", Weight := 1000, Distance := 1000, From := "", To := "",
    Transport := "", Amount := 0, Unit := "", Metadata := [] }

/-- A stored row for the activity commute whose factor is negative. -/
def negativeRow : EmissionFactor :=
  ⟨11, "commute", "car", -1, "kg_co2e_per_km", "manual entry"⟩

/-- A stored row whose factor is zero. -/
def zeroRow : EmissionFactor :=
  ⟨12, "shipping", "pipeline", 0, "kg_co2e_per_tonne_km", "manual entry"⟩

/-- The electricity request of the worked example with a unit and metadata as in the
example of `GetActivities`. -/
def grid100Tagged : CalculateRequest :=
  { Activity := "electricity", Weight := 0, Distance := 0, From := "", To := "",
    Transport := "grid", Amount := 100, Unit := "kwh",
    Metadata := [("site", .str "plant-7"), ("meter", .num 42)] }

/-- A request with an unknown activity whose raw footprint is just above 1000:
amount 1000.0004, no mode. -/
def commuteJustOver : CalculateRequest :=
  { Activity := "commute", Weight := 0, Distance := 0, From := "", To := "",
    Transport := "", Amount := 1000.0004, Unit := "", Metadata := [] }

/-! ## The float64 arithmetic of the footprint

The quantities of the request, the factor and the footprint are `float64` in the
source.  `F64` is a float64 value, and its operations round the exact result to the
nearest float64, ties to even, with signed zeros, gradual underflow, overflow to the
infinities and NaN, as IEEE 754 prescribes.  The definitions ending in `64` are the
footprint of the engine computed in this arithmetic. -/

/-- A float64 value: a finite one is `(-1)^neg * m * 2^e`, an infinity, or NaN. -/
inductive F64 where
  | finite (neg : Bool) (m : Nat) (e : Int)
  | inf (neg : Bool)
  | nan
  deriving DecidableEq

namespace F64

/-- Whether `2^e ≤ num / den`. -/
def pow2Le (num den : Nat) (e : Int) : Bool :=
  if 0 ≤ e then decide (den * 2 ^ e.toNat ≤ num) else decide (den ≤ num * 2 ^ (-e).toNat)

/-- The largest `e` in `[lo, hi]` with `2^(e+52) ≤ num / den`, or `lo` when there is
none, by bisection. -/
def searchExp (num den : Nat) : Nat → Int → Int → Int
  | 0, lo, _ => lo
  | fuel + 1, lo, hi =>
    if hi ≤ lo then lo
    else if pow2Le num den ((lo + hi + 1) / 2 + 52) = true then
      searchExp num den fuel ((lo + hi + 1) / 2) hi
    else searchExp num den fuel lo ((lo + hi + 1) / 2 - 1)

/-- The exponent of the last place of the float64 nearest to `num / den`: the leading
bit sits 52 places above it, and it is at least -1074 (the subnormal range). -/
def lastPlace (num den : Nat) : Int := searchExp num den 12 (-1074) 972

/-- The mantissa `num / den / 2^e` rounded to the nearest integer, ties to even. -/
def mantissa (num den : Nat) (e : Int) : Nat :=
  let N : Nat := if 0 ≤ e then num else num * 2 ^ (-e).toNat
  let D : Nat := if 0 ≤ e then den * 2 ^ e.toNat else den
  let q := N / D
  let r := N % D
  if 2 * r < D then q else if D < 2 * r then q + 1 else if q % 2 = 0 then q else q + 1

/-- Assemble the float64: a mantissa that rounding carried to `2^53` moves up one
place, and a last place above `2^971` is an overflow to infinity. -/
def pack (neg : Bool) (m : Nat) (e : Int) : F64 :=
  let m2 := if m = 2 ^ 53 then 2 ^ 52 else m
  let e2 := if m = 2 ^ 53 then e + 1 else e
  if 971 < e2 then .inf neg else .finite neg m2 e2

/-- The float64 nearest to `num / den` (ties to even) with the sign `neg`. -/
def roundNE (neg : Bool) (num den : Nat) : F64 :=
  if num = 0 then .finite neg 0 0
  else pack neg (mantissa num den (lastPlace num den)) (lastPlace num den)

/-- The float64 product `x * y`. -/
def mul : F64 → F64 → F64
  | .finite s1 m1 e1, .finite s2 m2 e2 =>
    if 0 ≤ e1 + e2 then roundNE (xor s1 s2) (m1 * m2 * 2 ^ (e1 + e2).toNat) 1
    else roundNE (xor s1 s2) (m1 * m2) (2 ^ (-(e1 + e2)).toNat)
  | .finite s1 m1 _, .inf s2 => if m1 = 0 then .nan else .inf (xor s1 s2)
  | .inf s1, .finite s2 m2 _ => if m2 = 0 then .nan else .inf (xor s1 s2)
  | .inf s1, .inf s2 => .inf (xor s1 s2)
  | _, _ => .nan

/-- The float64 quotient `x / y`. -/
def div : F64 → F64 → F64
  | .finite s1 m1 e1, .finite s2 m2 e2 =>
    if m2 = 0 then (if m1 = 0 then .nan else .inf (xor s1 s2))
    else if 0 ≤ e1 - e2 then roundNE (xor s1 s2) (m1 * 2 ^ (e1 - e2).toNat) m2
    else roundNE (xor s1 s2) m1 (m2 * 2 ^ (-(e1 - e2)).toNat)
  | .finite s1 _ _, .inf s2 => .finite (xor s1 s2) 0 0
  | .inf s1, .finite s2 _ _ => .inf (xor s1 s2)
  | _, _ => .nan

/-- The function `math.Round`: nearest integer, halves away from zero; zeros,
infinities and NaN are returned unchanged. -/
def round : F64 → F64
  | .finite neg m e =>
    if 0 ≤ e then .finite neg m e
    else .finite neg ((m + 2 ^ ((-e).toNat - 1)) / 2 ^ (-e).toNat) 0
  | x => x

/-- The comparison `x == 0`: true for both zeros only. -/
def isZero : F64 → Bool
  | .finite _ m _ => m == 0
  | _ => false

/-- The constant `1000`. -/
def thousand : F64 := .finite false 1000 0

/-- The float64 of a decimal literal `mantissa * 10^exp` with sign `neg`, as JSON
and Go read it. -/
def ofDecimal (neg : Bool) (mantissa : Nat) (exp : Int) : F64 :=
  if 0 ≤ exp then roundNE neg (mantissa * 10 ^ exp.toNat) 1
  else roundNE neg mantissa (10 ^ (-exp).toNat)

/-- The float64 of an exact decimal value: a stored `DECIMAL` or a literal of the
source. -/
def ofRat (q : ℚ) : F64 := roundNE (decide (q < 0)) q.num.natAbs q.den

/-- The real value of a finite float64. -/
def exactValue : F64 → Option ℚ
  | .finite neg m e => some ((if neg then -1 else 1) * (m : ℚ) * (2 : ℚ) ^ e)
  | _ => none

/-- The comparison `x >= 0`: a finite value that is not negative (either zero
included) or the positive infinity; false for NaN. -/
def NonNeg : F64 → Prop
  | .finite neg m _ => neg = false ∨ m = 0
  | .inf neg => neg = false
  | .nan => False

/-- A finite float64 that is not negative, with at most 53 bits of mantissa and the
last place at most `2^971`: what JSON delivers for a quantity `>= 0`. -/
def FiniteNonNeg : F64 → Prop
  | .finite neg m e => (neg = false ∨ m = 0) ∧ m < 2 ^ 53 ∧ e ≤ 971
  | _ => False

/-- A finite float64 that is greater than zero. -/
def IsPos : F64 → Prop
  | .finite neg m _ => neg = false ∧ m ≠ 0
  | _ => False

end F64

/-- The struct `CalculateRequest` with its three quantities as float64. -/
structure CalculateRequest64 where
  Activity : String
  Weight : F64
  Distance : F64
  From : String
  To : String
  Transport : String
  Amount : F64
  Unit : String
  Metadata : GoMap

/-- The method `estimateDistance` with its float64 result: the entries of the table
and the fallback are whole numbers, which float64 holds exactly. -/
def estimateDistance64 (src dst : String) : F64 := F64.ofRat (estimateDistance src dst)

/-- The `carbonFootprint` of `calculateShipping` in float64 arithmetic. -/
def calculateShipping64 (req : CalculateRequest64) (factor : F64) : F64 :=
  let distance := req.Distance
  let distance :=
    if distance.isZero = true ∧ req.From ≠ "" ∧ req.To ≠ "" then
      estimateDistance64 req.From req.To
    else distance
  let weightTonnes := req.Weight.div F64.thousand
  (weightTonnes.mul distance).mul factor

/-- The `carbonFootprint` of `calculateElectricity` in float64 arithmetic. -/
def calculateElectricity64 (req : CalculateRequest64) (factor : F64) : F64 :=
  req.Amount.mul factor

/-- The `carbonFootprint` of `calculateFuel` in float64 arithmetic. -/
def calculateFuel64 (req : CalculateRequest64) (factor : F64) : F64 :=
  req.Amount.mul factor

/-- The `carbonFootprint` that the `switch req.Activity` of
`calculateCarbonFootprint` assigns, in float64 arithmetic. -/
def formulaSwitch64 (req : CalculateRequest64) (factor : F64) : F64 :=
  if req.Activity = "shipping" then calculateShipping64 req factor
  else if req.Activity = "electricity" then calculateElectricity64 req factor
  else if req.Activity = "fuel" then calculateFuel64 req factor
  else req.Amount.mul factor

/-- The expression `math.Round(carbonFootprint*1000) / 1000` in float64 arithmetic. -/
def roundToThree (carbonFootprint : F64) : F64 :=
  (F64.round (carbonFootprint.mul F64.thousand)).div F64.thousand

/-- The field `CarbonFootprint` of the response of `calculateCarbonFootprint` in
float64 arithmetic; the factor of a stored row or of the default table is the
float64 of its decimal value. -/
def calculateCarbonFootprint64 (cs : CarbonService) (rnd : Nat) (req : CalculateRequest64) :
    Except String F64 :=
  match getEmissionFactor cs rnd req.Activity req.Transport with
  | .error err => .error err
  | .ok factor => .ok (roundToThree (formulaSwitch64 req (F64.ofRat factor.Factor)))

/-- A valid request in the words of the specification, for float64 quantities: the
activity is given and weight, distance and amount are finite and not negative. -/
def ValidRequest64 (req : CalculateRequest64) : Prop :=
  req.Activity ≠ "" ∧ req.Weight.FiniteNonNeg ∧ req.Distance.FiniteNonNeg
    ∧ req.Amount.FiniteNonNeg

/-- The request with activity commute and amount 1.001 as the handler parses it. -/
def commute1001 : CalculateRequest64 :=
  { Activity := "commute", Weight := .finite false 0 0, Distance := .finite false 0 0,
    From := "", To := "", Transport := "", Amount := F64.ofDecimal false 1001 (-3),
    Unit := "", Metadata := [] }

/-- A valid request for the activity commute by car, amount 1. -/
def commuteCar64 : CalculateRequest64 :=
  { Activity := "commute", Weight := .finite false 0 0, Distance := .finite false 0 0,
    From := "", To := "", Transport := "car", Amount := F64.ofDecimal false 1 0,
    Unit := "", Metadata := [] }

/-- The shipping request of the worked example with float64 quantities. -/
def nycLondonAir64 : CalculateRequest64 :=
  { Activity := "shipping", Weight := F64.ofDecimal false 500 0,
    Distance := .finite false 0 0, From := "NYC", To := "London", Transport := "air",
    Amount := .finite false 0 0, Unit := "", Metadata := [] }

/-- A valid shipping request by pipeline with weight and distance 1e308. -/
def shippingHuge64 : CalculateRequest64 :=
  { Activity := "shipping", Weight := F64.ofDecimal false 1 308,
    Distance := F64.ofDecimal false 1 308, From := "", To := "", Transport := "pipeline",
    Amount := .finite false 0 0, Unit := "", Metadata := [] }

/-- A valid fuel request for diesel with amount 1e308. -/
def fuelHuge64 : CalculateRequest64 :=
  { Activity := "fuel", Weight := .finite false 0 0, Distance := .finite false 0 0,
    From := "", To := "", Transport := "diesel", Amount := F64.ofDecimal false 1 308,
    Unit := "", Metadata := [] }

/-! # Theorems -/

/-! ## Rounding -/

theorem floor_half : ⌊(1 / 2 : ℚ)⌋ = 0 := by
  rw [Int.floor_eq_iff]; norm_num

theorem roundHalfAway_intCast (n : ℤ) : roundHalfAway (n : ℚ) = n := by
  unfold roundHalfAway
  split
  · rw [Int.floor_int_add, floor_half, add_zero]
  · rw [show (-(n : ℚ) + 1 / 2) = ((-n : ℤ) : ℚ) + 1 / 2 by push_cast; ring,
      Int.floor_int_add, floor_half, add_zero, neg_neg]

theorem mathRound_intCast (n : ℤ) : mathRound (n : ℚ) = n := by
  simp [mathRound, roundHalfAway_intCast]

/-! ## Factor resolution and the orchestrator: basic facts -/

theorem getEmissionFactor_unavailable (rnd : Nat) (activity transport : String) :
    getEmissionFactor ⟨unavailableDB⟩ rnd activity transport
      = .ok (getDefaultEmissionFactor rnd activity transport) := by
  simp [getEmissionFactor, unavailableDB]

theorem getEmissionFactor_ok (cs : CarbonService) (rnd : Nat) (activity transport : String) :
    ∃ factor, getEmissionFactor cs rnd activity transport = .ok factor := by
  unfold getEmissionFactor
  dsimp only
  generalize cs.db.queryRowScan _ _ = out
  cases out with
  | error e => exact ⟨_, rfl⟩
  | ok factor => exact ⟨_, rfl⟩

theorem calculateCarbonFootprint_of_factor (cs : CarbonService) (rnd now : Nat)
    (req : CalculateRequest) (factor : EmissionFactor)
    (h : getEmissionFactor cs rnd req.Activity req.Transport = .ok factor) :
    calculateCarbonFootprint cs rnd now req
      = .ok
          { CarbonFootprint := mathRound ((formulaSwitch req factor).1 * 1000) / 1000,
            Unit := "kg_co2e",
            Breakdown := (formulaSwitch req factor).2.1,
            Suggestions := generateSuggestions req (formulaSwitch req factor).1,
            Calculation := (formulaSwitch req factor).2.2,
            Timestamp := now } := by
  simp [calculateCarbonFootprint, h]

/-! ## The shipping formula -/

theorem shippingDistance_eq (req : CalculateRequest) :
    (if req.Distance = 0 ∧ req.From ≠ "" ∧ req.To ≠ "" then estimateDistance req.From req.To
      else req.Distance) = shippingDistance req := by
  unfold shippingDistance
  by_cases h0 : req.Distance = 0
  · by_cases h1 : req.From ≠ "" ∧ req.To ≠ ""
    · simp [h0, h1]
    · simp only [h0, h1, and_false, if_false, ne_eq, not_true_eq_false]
  · simp [h0]

/-- C1: for a shipping request the orchestrator dispatches to `calculateShipping`,
whose raw footprint is `(Weight / 1000) × d × f` with `d` the explicit distance when
it is not zero, the estimate when it is zero and both places are named, and zero
otherwise; `distance_km` of the breakdown is that `d`.  With the factor source
unavailable the NYC to London air example resolves `d = 5585`, `f = 0.996` and
returns 2781.33. -/
theorem C1_shipping_formula (req : CalculateRequest) (factor : EmissionFactor)
    (h : req.Activity = "shipping") :
    formulaSwitch req factor = calculateShipping req factor
    ∧ (calculateShipping req factor).1
        = (req.Weight / 1000) * shippingDistance req * factor.Factor
    ∧ (calculateShipping req factor).2.1.lookup "distance_km"
        = some (.num (shippingDistance req))
    ∧ shippingDistance nycLondonAir = 5585
    ∧ ∀ rnd now : Nat,
        (∃ f, getEmissionFactor ⟨unavailableDB⟩ rnd "shipping" "air" = .ok f
          ∧ f.Factor = 0.996)
        ∧ ∃ resp, calculateCarbonFootprint ⟨unavailableDB⟩ rnd now nycLondonAir = .ok resp
          ∧ resp.CarbonFootprint = 2781.33 := by
  refine ⟨by simp [formulaSwitch, h], ?_, ?_, ?_, ?_⟩
  · simp only [calculateShipping]
    rw [shippingDistance_eq]
  · simp only [calculateShipping]
    rw [shippingDistance_eq]
    simp [List.lookup]
  · simp [shippingDistance, nycLondonAir, estimateDistance, distances, List.lookup]
  · intro rnd now
    have hf : getDefaultEmissionFactor rnd "shipping" "air"
        = ⟨0, "shipping", "air", 0.996, "kg_co2e_per_tonne_km", "IPCC 2023"⟩ := by
      simp [getDefaultEmissionFactor, defaultFactors, List.lookup]
    refine ⟨⟨_, getEmissionFactor_unavailable rnd _ _, by rw [hf]⟩, ?_⟩
    refine ⟨_, calculateCarbonFootprint_of_factor _ rnd now nycLondonAir _
      (getEmissionFactor_unavailable rnd _ _), ?_⟩
    show mathRound ((formulaSwitch nycLondonAir
      (getDefaultEmissionFactor rnd "shipping" "air")).1 * 1000) / 1000 = 2781.33
    rw [hf]
    have hraw : (formulaSwitch nycLondonAir
        ⟨0, "shipping", "air", 0.996, "kg_co2e_per_tonne_km", "IPCC 2023"⟩).1 * 1000
          = ((2781330 : ℤ) : ℚ) := by
      simp [formulaSwitch, nycLondonAir, calculateShipping, estimateDistance, distances,
        List.lookup]
      norm_num
    rw [hraw, mathRound_intCast]
    norm_num

/-- A shipping request meets the hypothesis of C1: the NYC to London example. -/
theorem C1_shipping_formula_witness :
    nycLondonAir.Activity = "shipping"
    ∧ (calculateShipping nycLondonAir
        ⟨0, "shipping", "air", 0.996, "kg_co2e_per_tonne_km", "IPCC 2023"⟩).1
        = (500 / 1000) * shippingDistance nycLondonAir * 0.996 :=
  ⟨rfl, (C1_shipping_formula nycLondonAir
    ⟨0, "shipping", "air", 0.996, "kg_co2e_per_tonne_km", "IPCC 2023"⟩ rfl).2.1⟩

/-! ## The formulas of the other activities -/

theorem formulaSwitch_not_shipping (req : CalculateRequest) (factor : EmissionFactor)
    (h : req.Activity ≠ "shipping") :
    (formulaSwitch req factor).1 = req.Amount * factor.Factor := by
  unfold formulaSwitch
  rw [if_neg h]
  split
  · rfl
  · split <;> rfl

theorem getDefaultEmissionFactor_exact (rnd : Nat) :
    getDefaultEmissionFactor rnd "electricity" "grid"
      = ⟨0, "electricity", "grid", 0.525, "kg_co2e_per_kwh", "IEA 2023"⟩
    ∧ getDefaultEmissionFactor rnd "fuel" "diesel"
      = ⟨0, "fuel", "diesel", 2.68, "kg_co2e_per_liter", "EPA 2023"⟩
    ∧ getDefaultEmissionFactor rnd "commute" "" = ultimateFallback "commute" "" := by
  simp [getDefaultEmissionFactor, defaultFactors, List.lookup]

/-- C2: for a request whose activity is not shipping (electricity, fuel, or any
other string) the raw footprint is `Amount × factor`, whatever the weight, distance,
origin and destination, and the response carries that product rounded.  With the
factor source unavailable: electricity from the grid, amount 100, returns 52.5;
diesel, amount 50, returns 134; the unknown activity commute, amount 10 and no mode,
resolves the default factor 1 and returns 10. -/
theorem C2_amount_times_factor (req : CalculateRequest) (h : req.Activity ≠ "shipping") :
    (∀ factor : EmissionFactor,
      (formulaSwitch req factor).1 = req.Amount * factor.Factor
      ∧ ∀ (w d : ℚ) (src dst : String),
          (formulaSwitch { req with Weight := w, Distance := d, From := src, To := dst }
            factor).1 = (formulaSwitch req factor).1)
    ∧ (∀ (cs : CarbonService) (rnd now : Nat), ∃ factor resp,
        getEmissionFactor cs rnd req.Activity req.Transport = .ok factor
        ∧ calculateCarbonFootprint cs rnd now req = .ok resp
        ∧ resp.CarbonFootprint = mathRound (req.Amount * factor.Factor * 1000) / 1000)
    ∧ (∀ rnd now : Nat,
        (∃ resp, calculateCarbonFootprint ⟨unavailableDB⟩ rnd now grid100 = .ok resp
          ∧ resp.CarbonFootprint = 52.5)
        ∧ (∃ resp, calculateCarbonFootprint ⟨unavailableDB⟩ rnd now diesel50 = .ok resp
          ∧ resp.CarbonFootprint = 134.0)
        ∧ (∃ resp, calculateCarbonFootprint ⟨unavailableDB⟩ rnd now commute10 = .ok resp
          ∧ (getDefaultEmissionFactor rnd "commute" "").Factor = 1.0
          ∧ resp.CarbonFootprint = 10.0)) := by
  refine ⟨fun factor => ⟨formulaSwitch_not_shipping req factor h, ?_⟩, ?_, ?_⟩
  · intro w d src dst
    exact (formulaSwitch_not_shipping
      { req with Weight := w, Distance := d, From := src, To := dst } factor h).trans
      (formulaSwitch_not_shipping req factor h).symm
  · intro cs rnd now
    obtain ⟨factor, hf⟩ := getEmissionFactor_ok cs rnd req.Activity req.Transport
    refine ⟨factor, _, hf, calculateCarbonFootprint_of_factor cs rnd now req factor hf, ?_⟩
    show mathRound ((formulaSwitch req factor).1 * 1000) / 1000 = _
    rw [formulaSwitch_not_shipping req factor h]
  · intro rnd now
    obtain ⟨hg, hd, hc⟩ := getDefaultEmissionFactor_exact rnd
    refine ⟨⟨_, calculateCarbonFootprint_of_factor _ rnd now grid100 _
        (getEmissionFactor_unavailable rnd _ _), ?_⟩,
      ⟨_, calculateCarbonFootprint_of_factor _ rnd now diesel50 _
        (getEmissionFactor_unavailable rnd _ _), ?_⟩,
      ⟨_, calculateCarbonFootprint_of_factor _ rnd now commute10 _
        (getEmissionFactor_unavailable rnd _ _), ?_, ?_⟩⟩
    · show mathRound ((formulaSwitch grid100
        (getDefaultEmissionFactor rnd "electricity" "grid")).1 * 1000) / 1000 = 52.5
      rw [formulaSwitch_not_shipping _ _ (by decide), hg,
        show grid100.Amount * (0.525 : ℚ) * 1000 = ((52500 : ℤ) : ℚ) by
          simp [grid100]; norm_num,
        mathRound_intCast]
      norm_num
    · show mathRound ((formulaSwitch diesel50
        (getDefaultEmissionFactor rnd "fuel" "diesel")).1 * 1000) / 1000 = 134.0
      rw [formulaSwitch_not_shipping _ _ (by decide), hd,
        show diesel50.Amount * (2.68 : ℚ) * 1000 = ((134000 : ℤ) : ℚ) by
          simp [diesel50]; norm_num,
        mathRound_intCast]
      norm_num
    · rw [hc]; rfl
    · show mathRound ((formulaSwitch commute10
        (getDefaultEmissionFactor rnd "commute" "")).1 * 1000) / 1000 = 10.0
      rw [formulaSwitch_not_shipping _ _ (by decide), hc,
        show commute10.Amount * (ultimateFallback "commute" "").Factor * 1000
            = ((10000 : ℤ) : ℚ) by
          simp [commute10, ultimateFallback]; norm_num,
        mathRound_intCast]
      norm_num

/-- An electricity request meets the hypothesis of C2. -/
theorem C2_amount_times_factor_witness :
    grid100.Activity ≠ "shipping"
    ∧ (formulaSwitch grid100 ⟨0, "electricity", "grid", 0.525, "kg_co2e_per_kwh", "IEA 2023"⟩).1
        = 100 * 0.525 :=
  ⟨by decide, ((C2_amount_times_factor grid100 (by decide)).1
    ⟨0, "electricity", "grid", 0.525, "kg_co2e_per_kwh", "IEA 2023"⟩).1⟩

/-! ## Rounding in exact arithmetic, and lookups -/

theorem roundHalfAway_nearest (x : ℚ) : IsNearestHalfAway x (roundHalfAway x) := by
  unfold roundHalfAway IsNearestHalfAway
  split
  · rename_i hx
    have h1 := Int.floor_le (x + 1 / 2)
    have h2 := Int.lt_floor_add_one (x + 1 / 2)
    have hn : (0 : ℚ) ≤ (⌊x + 1 / 2⌋ : ℚ) := by
      have : (0 : ℤ) ≤ ⌊x + 1 / 2⌋ := Int.floor_nonneg.mpr (by linarith)
      exact_mod_cast this
    refine ⟨abs_le.mpr ⟨by linarith, by linarith⟩, fun he => ?_⟩
    rw [abs_of_nonneg hx, abs_of_nonneg hn]
    rcases abs_eq (by norm_num : (0 : ℚ) ≤ 1 / 2) |>.mp he with h | h <;> linarith
  · rename_i hx
    have hx : x < 0 := not_le.mp hx
    have h1 := Int.floor_le (-x + 1 / 2)
    have h2 := Int.lt_floor_add_one (-x + 1 / 2)
    have hn : (0 : ℚ) ≤ (⌊-x + 1 / 2⌋ : ℚ) := by
      have : (0 : ℤ) ≤ ⌊-x + 1 / 2⌋ := Int.floor_nonneg.mpr (by linarith)
      exact_mod_cast this
    push_cast
    refine ⟨abs_le.mpr ⟨by linarith, by linarith⟩, fun he => ?_⟩
    rw [abs_of_neg hx, abs_neg, abs_of_nonneg hn]
    rcases abs_eq (by norm_num : (0 : ℚ) ≤ 1 / 2) |>.mp he with h | h <;> linarith

theorem lookup_some_mem {α : Type} (l : List (String × α)) (k : String) (v : α)
    (h : l.lookup k = some v) : (k, v) ∈ l := by
  induction l with
  | nil => simp [List.lookup] at h
  | cons p t ih =>
    obtain ⟨k1, v1⟩ := p
    by_cases hk : k = k1
    · subst hk
      simp [List.lookup] at h
      simp [h]
    · have hb : (k == k1) = false := by simpa using hk
      simp only [List.lookup, hb] at h
      exact List.mem_cons_of_mem _ (ih h)

/-! ## Factor resolution -/

theorem getEmissionFactor_eq (cs : CarbonService) (rnd : Nat) (activity transport : String) :
    getEmissionFactor cs rnd activity transport
      = match cs.db.queryRowScan (issuedQuery transport) (issuedArgs activity transport) with
        | .error _ => .ok (getDefaultEmissionFactor rnd activity transport)
        | .ok factor => .ok factor := by
  unfold getEmissionFactor issuedQuery issuedArgs
  by_cases h : transport = "" <;> simp [h]

theorem lookup_none_of_not_mem {α : Type} (l : List (String × α)) (k : String)
    (h : ∀ v, (k, v) ∉ l) : l.lookup k = none := by
  cases hl : l.lookup k with
  | none => rfl
  | some v => exact absurd (lookup_some_mem l k v hl) (h v)

theorem rangeFirst_mem {α : Type} (rnd : Nat) (m : List (String × α)) (a : α)
    (h : rangeFirst rnd m = some a) : ∃ k, (k, a) ∈ m := by
  unfold rangeFirst at h
  rcases Option.map_eq_some'.mp h with ⟨p, hp, rfl⟩
  exact ⟨p.1, List.get?_mem hp⟩

theorem rangeFirst_some {α : Type} (rnd : Nat) (m : List (String × α)) (h : m ≠ []) :
    ∃ a, rangeFirst rnd m = some a := by
  unfold rangeFirst
  have hlt : rnd % m.length < m.length := Nat.mod_lt _ (List.length_pos.mpr h)
  exact ⟨(m.get ⟨_, hlt⟩).2, by rw [List.get?_eq_get hlt]; rfl⟩

theorem defaultFactors_entries :
    ∀ q ∈ defaultFactors, q.2 ≠ [] ∧
      ∀ p ∈ q.2, p.2.Activity = q.1 ∧ p.2.TransportMode = p.1 ∧ 0 < p.2.Factor
        ∧ p.2.Factor ∈ q.2.map (fun e => e.2.Factor) := by
  simp only [defaultFactors, List.forall_mem_cons, List.not_mem_nil, false_implies,
    implies_true, and_true, List.map_cons, List.map_nil]
  norm_num
  exact ⟨List.cons_ne_nil _ _, List.cons_ne_nil _ _, List.cons_ne_nil _ _⟩

theorem ultimateFallback_pos (activity transport : String) :
    0 < (ultimateFallback activity transport).Factor := by
  simp only [ultimateFallback]
  norm_num

theorem getDefaultEmissionFactor_pos (rnd : Nat) (activity transport : String) :
    0 < (getDefaultEmissionFactor rnd activity transport).Factor := by
  unfold getDefaultEmissionFactor
  split
  · rename_i tbl htbl
    have hq := (defaultFactors_entries _ (lookup_some_mem _ _ _ htbl)).2
    split
    · rename_i f hf
      exact (hq _ (lookup_some_mem _ _ _ hf)).2.2.1
    · split
      · rename_i f hf
        obtain ⟨k, hk⟩ := rangeFirst_mem _ _ _ hf
        exact (hq _ hk).2.2.1
      · exact ultimateFallback_pos _ _
  · exact ultimateFallback_pos _ _

/-- C4, as stated, fails: when the query yields a stored row whose factor is zero,
`getEmissionFactor` returns that row, and its factor is not positive. -/
theorem C4_counterexample :
    getEmissionFactor ⟨rowsDB [zeroRow]⟩ 0 "shipping" "pipeline" = .ok zeroRow
    ∧ ¬ 0 < zeroRow.Factor := by
  constructor
  · simp [getEmissionFactor, rowsDB, zeroRow, List.find?]
  · simp [zeroRow]

/-- C4, amended: for every pair of strings, every state of the factor source and
every enumeration order, `getEmissionFactor` returns a factor and a nil error; when
the query ends in an error (no row, or the source unreachable) the factor is the one
of `getDefaultEmissionFactor` and is positive; when the query yields a row the
factor is that row unchanged, so it is positive exactly when the stored one is. -/
theorem C4_getEmissionFactor_total (cs : CarbonService) (rnd : Nat)
    (activity transport : String) :
    ∃ factor, getEmissionFactor cs rnd activity transport = .ok factor
      ∧ (∀ e, cs.db.queryRowScan (issuedQuery transport) (issuedArgs activity transport)
            = .error e →
          factor = getDefaultEmissionFactor rnd activity transport ∧ 0 < factor.Factor)
      ∧ (∀ row, cs.db.queryRowScan (issuedQuery transport) (issuedArgs activity transport)
            = .ok row →
          factor = row) := by
  rw [getEmissionFactor_eq]
  cases hq : cs.db.queryRowScan (issuedQuery transport) (issuedArgs activity transport) with
  | error e =>
    exact ⟨_, rfl, fun _ _ => ⟨rfl, getDefaultEmissionFactor_pos _ _ _⟩,
      fun row hrow => (by cases hrow)⟩
  | ok row =>
    exact ⟨row, rfl, fun e he => (by cases he), fun r hr => (by cases hr; rfl)⟩

/-- The amended C4 with the factor source unreachable and both strings empty: the
query ends in an error and the returned factor is positive. -/
theorem C4_getEmissionFactor_total_witness :
    unavailableDB.queryRowScan (issuedQuery "") (issuedArgs "" "")
      = .error "connection refused"
    ∧ ∃ factor, getEmissionFactor ⟨unavailableDB⟩ 0 "" "" = .ok factor
        ∧ 0 < factor.Factor := by
  obtain ⟨factor, hf, herr, _⟩ := C4_getEmissionFactor_total ⟨unavailableDB⟩ 0 "" ""
  exact ⟨rfl, factor, hf, (herr "connection refused" rfl).2⟩

/-! ## The fallback chain of the default table -/

theorem getDefaultEmissionFactor_unknown (rnd : Nat) (activity transport : String)
    (h1 : activity ≠ "shipping") (h2 : activity ≠ "electricity") (h3 : activity ≠ "fuel") :
    getDefaultEmissionFactor rnd activity transport = ultimateFallback activity transport := by
  have hl : defaultFactors.lookup activity = none := by
    apply lookup_none_of_not_mem
    intro v hv
    simp only [defaultFactors, List.mem_cons, Prod.mk.injEq, List.not_mem_nil, or_false] at hv
    rcases hv with ⟨h, _⟩ | ⟨h, _⟩ | ⟨h, _⟩
    · exact h1 h
    · exact h2 h
    · exact h3 h
  simp [getDefaultEmissionFactor, hl]

theorem getDefaultEmissionFactor_table (rnd : Nat) (activity transport : String)
    (tbl : List (String × EmissionFactor)) (e : EmissionFactor)
    (ha : (activity, tbl) ∈ defaultFactors) (he : (transport, e) ∈ tbl) :
    getDefaultEmissionFactor rnd activity transport = e := by
  simp only [defaultFactors, List.mem_cons, Prod.mk.injEq, List.not_mem_nil, or_false] at ha
  rcases ha with ⟨rfl, rfl⟩ | ⟨rfl, rfl⟩ | ⟨rfl, rfl⟩ <;>
    simp only [List.mem_cons, Prod.mk.injEq, List.not_mem_nil, or_false] at he
  · rcases he with ⟨rfl, rfl⟩ | ⟨rfl, rfl⟩ | ⟨rfl, rfl⟩ | ⟨rfl, rfl⟩ <;>
      simp [getDefaultEmissionFactor, defaultFactors, List.lookup]
  · rcases he with ⟨rfl, rfl⟩ | ⟨rfl, rfl⟩ | ⟨rfl, rfl⟩ <;>
      simp [getDefaultEmissionFactor, defaultFactors, List.lookup]
  · rcases he with ⟨rfl, rfl⟩ | ⟨rfl, rfl⟩ | ⟨rfl, rfl⟩ <;>
      simp [getDefaultEmissionFactor, defaultFactors, List.lookup]

theorem lookup_defaultFactors (activity : String) (tbl : List (String × EmissionFactor))
    (ha : (activity, tbl) ∈ defaultFactors) : defaultFactors.lookup activity = some tbl := by
  simp only [defaultFactors, List.mem_cons, Prod.mk.injEq, List.not_mem_nil, or_false] at ha
  rcases ha with ⟨rfl, rfl⟩ | ⟨rfl, rfl⟩ | ⟨rfl, rfl⟩ <;>
    simp [defaultFactors, List.lookup]

theorem getDefaultEmissionFactor_unmatched (rnd : Nat) (activity transport : String)
    (tbl : List (String × EmissionFactor)) (ha : (activity, tbl) ∈ defaultFactors)
    (ht : ∀ e, (transport, e) ∉ tbl) :
    ∃ mode, (mode, getDefaultEmissionFactor rnd activity transport) ∈ tbl := by
  have hne := (defaultFactors_entries _ ha).1
  obtain ⟨f, hf⟩ := rangeFirst_some rnd tbl hne
  have hval : getDefaultEmissionFactor rnd activity transport = f := by
    simp [getDefaultEmissionFactor, lookup_defaultFactors activity tbl ha,
      lookup_none_of_not_mem tbl transport ht, hf]
  rw [hval]
  exact rangeFirst_mem rnd tbl f hf

/-- C5: the fallback chain of `getDefaultEmissionFactor`, for every input and every
enumeration order.  (1) The built-in table has ten (activity, mode) pairs and a pair
of the table yields exactly its entry: shipping by air 0.996, grid electricity
0.525, diesel 2.68.  (2) For shipping, electricity or fuel with a mode that is empty
or not a mode of the activity, the result is some entry of the table of that
activity: its activity is the requested one and its factor is one of the listed
factors of the activity.  (3) For any other activity the result has factor 1,
unit kg_co2e_per_unit and source Default. -/
theorem C5_default_fallback_chain (rnd : Nat) (activity transport : String) :
    ((defaultFactors.map (fun q => q.2.length)).sum = 10
      ∧ defaultFactors.map (fun q => (q.1, q.2.map (fun p => (p.1, p.2.Factor))))
          = [ ("shipping", [("air", 0.996), ("sea", 0.015), ("road", 0.209), ("rail", 0.028)]),
              ("electricity", [("grid", 0.525), ("solar", 0.041), ("wind", 0.011)]),
              ("fuel", [("gasoline", 2.31), ("diesel", 2.68), ("natural_gas", 0.202)]) ])
    ∧ (∀ tbl e, (activity, tbl) ∈ defaultFactors → (transport, e) ∈ tbl →
        getDefaultEmissionFactor rnd activity transport = e)
    ∧ ((getDefaultEmissionFactor rnd "shipping" "air").Factor = 0.996
        ∧ (getDefaultEmissionFactor rnd "electricity" "grid").Factor = 0.525
        ∧ (getDefaultEmissionFactor rnd "fuel" "diesel").Factor = 2.68)
    ∧ (∀ tbl, (activity = "shipping" ∨ activity = "electricity" ∨ activity = "fuel") →
        defaultFactors.lookup activity = some tbl →
        (transport = "" ∨ ∀ e, (transport, e) ∉ tbl) →
        (∃ mode, (mode, getDefaultEmissionFactor rnd activity transport) ∈ tbl)
        ∧ (getDefaultEmissionFactor rnd activity transport).Activity = activity
        ∧ (getDefaultEmissionFactor rnd activity transport).Factor
            ∈ tbl.map (fun p => p.2.Factor))
    ∧ (activity ≠ "shipping" → activity ≠ "electricity" → activity ≠ "fuel" →
        getDefaultEmissionFactor rnd activity transport
          = ⟨0, activity, transport, 1.0, "kg_co2e_per_unit", "Default"⟩) := by
  refine ⟨⟨by simp [defaultFactors], by simp [defaultFactors]⟩,
    fun tbl e ha he => getDefaultEmissionFactor_table rnd activity transport tbl e ha he,
    ?_, ?_, ?_⟩
  · simp [getDefaultEmissionFactor, defaultFactors, List.lookup]
  · intro tbl _ hl ht
    have ha := lookup_some_mem _ _ _ hl
    have hinv := (defaultFactors_entries _ ha).2
    have ht2 : ∀ e, (transport, e) ∉ tbl := by
      rcases ht with rfl | ht
      · intro e he
        have := (hinv _ he).2.1
        simp only [defaultFactors, List.mem_cons, Prod.mk.injEq, List.not_mem_nil,
          or_false] at ha
        rcases ha with ⟨_, rfl⟩ | ⟨_, rfl⟩ | ⟨_, rfl⟩ <;>
          simp only [List.mem_cons, Prod.mk.injEq, List.not_mem_nil, or_false] at he <;>
          simp at he
      · exact ht
    obtain ⟨mode, hm⟩ := getDefaultEmissionFactor_unmatched rnd activity transport tbl ha ht2
    exact ⟨⟨mode, hm⟩, (hinv _ hm).1, (hinv _ hm).2.2.2⟩
  · intro h1 h2 h3
    rw [getDefaultEmissionFactor_unknown rnd activity transport h1 h2 h3]
    rfl

/-- The hypotheses of C5 are met: diesel is a pair of the table; shipping with an
empty mode falls to an entry of the shipping table; commute is an unknown
activity. -/
theorem C5_default_fallback_chain_witness :
    getDefaultEmissionFactor 0 "fuel" "diesel"
      = ⟨0, "fuel", "diesel", 2.68, "kg_co2e_per_liter", "EPA 2023"⟩
    ∧ (getDefaultEmissionFactor 1 "shipping" "").Activity = "shipping"
    ∧ getDefaultEmissionFactor 0 "commute" "car"
      = ⟨0, "commute", "car", 1.0, "kg_co2e_per_unit", "Default"⟩ :=
  ⟨(C5_default_fallback_chain 0 "fuel" "diesel").2.1 _ _
      (by simp [defaultFactors]; rfl) (by simp),
    ((C5_default_fallback_chain 1 "shipping" "").2.2.2.1 _ (Or.inl rfl)
      (by simp [defaultFactors, List.lookup]; rfl) (Or.inl rfl)).2.1,
    (C5_default_fallback_chain 0 "commute" "car").2.2.2.2 (by decide) (by decide) (by decide)⟩

/-! ## The handler -/

theorem calculateCarbonFootprint_ok (cs : CarbonService) (rnd now : Nat)
    (req : CalculateRequest) : ∃ resp, calculateCarbonFootprint cs rnd now req = .ok resp := by
  obtain ⟨factor, hf⟩ := getEmissionFactor_ok cs rnd req.Activity req.Transport
  exact ⟨_, calculateCarbonFootprint_of_factor cs rnd now req factor hf⟩

/-- C6: for every parsed request the handler answers with the validation failure
(status 400, Activity is required) exactly when the activity is the empty string,
and then it makes no call into the service, so `calculateCarbonFootprint` is not
invoked; for every request, every state of the factor source and every enumeration
order `calculateCarbonFootprint` returns a result and no error, so the branch of the
handler that answers 500 with Failed to calculate carbon footprint is never taken.
A request with an activity makes the three calls and ends in `c.JSON(result)`:
status 200 with the result, or the error of the encoder handed to the framework;
the client sees status 500 only in that last case, through `ErrorHandler`. -/
theorem C6_fails_only_on_empty_activity (cs : CarbonService) (rnd now : Nat)
    (req : CalculateRequest) (userID : Option String)
    (jsonEncoder : CalculateResponse → Except String String) :
    ((CalculateCarbon cs rnd now ⟨.ok req, userID, jsonEncoder⟩).1
        = .ok ⟨400, .error "Activity is required"⟩ ↔ req.Activity = "")
    ∧ (req.Activity = "" →
        (CalculateCarbon cs rnd now ⟨.ok req, userID, jsonEncoder⟩).2 = [])
    ∧ (∃ resp, calculateCarbonFootprint cs rnd now req = .ok resp)
    ∧ (CalculateCarbon cs rnd now ⟨.ok req, userID, jsonEncoder⟩).1
        ≠ .ok ⟨500, .error "Failed to calculate carbon footprint"⟩
    ∧ (req.Activity ≠ "" → ∃ resp,
        calculateCarbonFootprint cs rnd now req = .ok resp
        ∧ (CalculateCarbon cs rnd now ⟨.ok req, userID, jsonEncoder⟩).2
            = [ .calculateCarbonFootprint req, .storeCalculation req resp,
                .trackAPIUsage "calculate" (userID.getD "anonymous") ]
        ∧ (CalculateCarbon cs rnd now ⟨.ok req, userID, jsonEncoder⟩).1
            = (match jsonEncoder resp with
              | .error err => .error ⟨none, err⟩
              | .ok _ => .ok ⟨200, .result resp⟩))
    ∧ ((respond (CalculateCarbon cs rnd now ⟨.ok req, userID, jsonEncoder⟩).1).status = 500
        ↔ req.Activity ≠ "" ∧ ∃ resp err,
            calculateCarbonFootprint cs rnd now req = .ok resp
            ∧ jsonEncoder resp = .error err) := by
  obtain ⟨resp, hresp⟩ := calculateCarbonFootprint_ok cs rnd now req
  by_cases ha : req.Activity = ""
  · have hc : CalculateCarbon cs rnd now ⟨.ok req, userID, jsonEncoder⟩
        = (.ok ⟨400, .error "Activity is required"⟩, []) := by
      simp [CalculateCarbon, ha]
    refine ⟨⟨fun _ => ha, fun _ => by rw [hc]⟩, fun _ => by rw [hc], ⟨resp, hresp⟩,
      ?_, fun hne => absurd ha hne, ?_⟩
    · rw [hc]
      simp
    · rw [hc]
      simp [respond, ha]
  · cases henc : jsonEncoder resp with
    | error err =>
      have hc : CalculateCarbon cs rnd now ⟨.ok req, userID, jsonEncoder⟩
          = (.error ⟨none, err⟩,
              [ .calculateCarbonFootprint req, .storeCalculation req resp,
                .trackAPIUsage "calculate" (userID.getD "anonymous") ]) := by
        simp [CalculateCarbon, ha, hresp, henc]
      refine ⟨⟨fun h => ?_, fun h => absurd h ha⟩, fun h => absurd h ha, ⟨resp, hresp⟩,
        ?_, fun _ => ⟨resp, hresp, by rw [hc], by rw [hc, henc]⟩, ?_⟩
      · rw [hc] at h
        cases h
      · rw [hc]
        simp
      · rw [hc]
        simp only [respond, ErrorHandler]
        exact ⟨fun _ => ⟨ha, resp, err, hresp, henc⟩, fun _ => trivial⟩
    | ok bytes =>
      have hc : CalculateCarbon cs rnd now ⟨.ok req, userID, jsonEncoder⟩
          = (.ok ⟨200, .result resp⟩,
              [ .calculateCarbonFootprint req, .storeCalculation req resp,
                .trackAPIUsage "calculate" (userID.getD "anonymous") ]) := by
        simp [CalculateCarbon, ha, hresp, henc]
      refine ⟨⟨fun h => ?_, fun h => absurd h ha⟩, fun h => absurd h ha, ⟨resp, hresp⟩,
        ?_, fun _ => ⟨resp, hresp, by rw [hc], by rw [hc, henc]⟩, ?_⟩
      · rw [hc] at h
        simp at h
      · rw [hc]
        simp
      · rw [hc]
        simp only [respond]
        constructor
        · intro h
          simp at h
        · rintro ⟨_, resp2, err, h2, he⟩
          rw [hresp] at h2
          cases h2
          rw [henc] at he
          cases he

/-- The hypotheses of C6 are met: a request without an activity is rejected with no
call made; a request with an activity is answered with status 200 when the encoder
succeeds, and the client sees status 500 when the encoder refuses the result. -/
theorem C6_fails_only_on_empty_activity_witness :
    (CalculateCarbon ⟨unavailableDB⟩ 0 0 ⟨.ok noActivity, none, fun _ => .ok ""⟩).2 = []
    ∧ (∃ resp, (CalculateCarbon ⟨unavailableDB⟩ 0 0 ⟨.ok commute10, none, fun _ => .ok ""⟩).1
        = .ok ⟨200, .result resp⟩)
    ∧ (respond (CalculateCarbon ⟨unavailableDB⟩ 0 0
        ⟨.ok commute10, none, fun _ => .error "json: unsupported value: +Inf"⟩).1).status
        = 500 := by
  refine ⟨(C6_fails_only_on_empty_activity ⟨unavailableDB⟩ 0 0 noActivity none
      (fun _ => .ok "")).2.1 rfl, ?_, ?_⟩
  · obtain ⟨resp, _, _, h⟩ :=
      (C6_fails_only_on_empty_activity ⟨unavailableDB⟩ 0 0 commute10 none
        (fun _ => .ok "")).2.2.2.2.1 (by decide)
    exact ⟨resp, h⟩
  · obtain ⟨resp, hresp⟩ := calculateCarbonFootprint_ok ⟨unavailableDB⟩ 0 0 commute10
    exact (C6_fails_only_on_empty_activity ⟨unavailableDB⟩ 0 0 commute10 none
      (fun _ => .error "json: unsupported value: +Inf")).2.2.2.2.2.mpr
      ⟨by decide, resp, _, hresp, rfl⟩

/-! ## Suggestions -/

/-- C7: for every request and footprint, `generateSuggestions` returns the
activity-specific suggestions followed by the offsetting part: the two strings of
the rule that matches (shipping by air, shipping by road, grid electricity, fuel
with any mode) or none, then the offsetting string exactly when the footprint
exceeds 1000.  Shipping by air at 2781.33 gives three suggestions with the
offsetting one last, grid electricity at 52.5 exactly the two grid suggestions, and
commute at 10 none. -/
theorem C7_generateSuggestions (req : CalculateRequest) (footprint : ℚ) :
    generateSuggestions req footprint
        = activitySuggestions req.Activity req.Transport ++ offsettingSuggestions footprint
    ∧ generateSuggestions nycLondonAir 2781.33
        = [ "Consider sea freight to reduce emissions by 98%",
            "Use rail transport when possible for 97% reduction",
            "This is a high-impact activity - consider carbon offsetting" ]
    ∧ generateSuggestions grid100 52.5
        = [ "Switch to renewable energy for 92% reduction",
            "Install solar panels for clean energy" ]
    ∧ generateSuggestions commute10 10 = [] := by
  have key : ∀ (r : CalculateRequest) (fp : ℚ), generateSuggestions r fp
      = activitySuggestions r.Activity r.Transport ++ offsettingSuggestions fp := by
    intro r fp
    unfold generateSuggestions activitySuggestions offsettingSuggestions
    by_cases hs : r.Activity = "shipping"
    · by_cases ha : r.Transport = "air"
      · by_cases hf : fp > 1000 <;> simp [hs, ha, hf]
      · by_cases hr : r.Transport = "road"
        · by_cases hf : fp > 1000 <;> simp [hs, hr, hf]
        · by_cases hf : fp > 1000 <;> simp [hs, ha, hr, hf]
    · by_cases he : r.Activity = "electricity"
      · by_cases hg : r.Transport = "grid"
        · by_cases hf : fp > 1000 <;> simp [he, hg, hf]
        · by_cases hf : fp > 1000 <;> simp [he, hg, hf]
      · by_cases hu : r.Activity = "fuel"
        · by_cases hf : fp > 1000 <;> simp [hu, hf]
        · by_cases hf : fp > 1000 <;> simp [hs, he, hu, hf]
  refine ⟨key req footprint, ?_, ?_, ?_⟩
  · rw [key]
    simp [activitySuggestions, offsettingSuggestions, nycLondonAir]
    norm_num
  · rw [key]
    simp [activitySuggestions, offsettingSuggestions, grid100]
    norm_num
  · rw [key]
    simp [activitySuggestions, offsettingSuggestions, commute10]
    norm_num

/-! ## Distance estimation -/

/-- C8: `estimateDistance` is total; for an ordered pair of the static table it
returns the value of the table (NYC to London 5585) and for every ordered pair that
is absent it returns 1000 (Berlin to Tokyo).  The lookup is direction-sensitive: NYC
to Tokyo is 10847 while Tokyo to NYC, absent from the table, is 1000. -/
theorem C8_estimateDistance (src dst : String) :
    (∀ tbl d, (src, tbl) ∈ distances → (dst, d) ∈ tbl → estimateDistance src dst = d)
    ∧ ((∀ tbl d, (src, tbl) ∈ distances → (dst, d) ∉ tbl) → estimateDistance src dst = 1000)
    ∧ estimateDistance "NYC" "London" = 5585
    ∧ estimateDistance "Berlin" "Tokyo" = 1000
    ∧ estimateDistance "NYC" "Tokyo" = 10847
    ∧ estimateDistance "Tokyo" "NYC" = 1000 := by
  refine ⟨?_, ?_, ?_, ?_, ?_, ?_⟩
  · intro tbl d hs hd
    simp only [distances, List.mem_cons, Prod.mk.injEq, List.not_mem_nil, or_false] at hs
    rcases hs with ⟨rfl, rfl⟩ | ⟨rfl, rfl⟩ | ⟨rfl, rfl⟩ <;>
      simp only [List.mem_cons, Prod.mk.injEq, List.not_mem_nil, or_false] at hd
    · rcases hd with ⟨rfl, rfl⟩ | ⟨rfl, rfl⟩ | ⟨rfl, rfl⟩ | ⟨rfl, rfl⟩ | ⟨rfl, rfl⟩ <;>
        simp [estimateDistance, distances, List.lookup]
    · rcases hd with ⟨rfl, rfl⟩ | ⟨rfl, rfl⟩ | ⟨rfl, rfl⟩ <;>
        simp [estimateDistance, distances, List.lookup]
    · rcases hd with ⟨rfl, rfl⟩ | ⟨rfl, rfl⟩ | ⟨rfl, rfl⟩ <;>
        simp [estimateDistance, distances, List.lookup]
  · intro h
    unfold estimateDistance
    cases hl : distances.lookup src with
    | none => rfl
    | some tbl =>
      have hn : tbl.lookup dst = none :=
        lookup_none_of_not_mem tbl dst (fun d => h tbl d (lookup_some_mem _ _ _ hl))
      simp [hn]
  · simp [estimateDistance, distances, List.lookup]
  · simp [estimateDistance, distances, List.lookup]
  · simp [estimateDistance, distances, List.lookup]
  · simp [estimateDistance, distances, List.lookup]

/-- The hypotheses of C8 are met: London to Tokyo is an entry of the table, and no
entry has Sydney as its origin. -/
theorem C8_estimateDistance_witness :
    estimateDistance "London" "Tokyo" = 9561 ∧ estimateDistance "Sydney" "NYC" = 1000 :=
  ⟨(C8_estimateDistance "London" "Tokyo").1 _ _
      (by simp [distances]; rfl) (by simp),
    (C8_estimateDistance "Sydney" "NYC").2.1 (by
      intro tbl d hs
      simp [distances] at hs)⟩

/-! ## Repeated calls and the enumeration order -/

theorem getDefaultEmissionFactor_shipping_noMode :
    getDefaultEmissionFactor 0 "shipping" ""
      = ⟨0, "shipping", "air", 0.996, "kg_co2e_per_tonne_km", "IPCC 2023"⟩
    ∧ getDefaultEmissionFactor 1 "shipping" ""
      = ⟨0, "shipping", "sea", 0.015, "kg_co2e_per_tonne_km", "IPCC 2023"⟩ := by
  constructor <;>
    simp [getDefaultEmissionFactor, defaultFactors, List.lookup, rangeFirst]

theorem getEmissionFactor_rnd_irrelevant (cs : CarbonService) (rnd1 rnd2 : Nat)
    (activity transport : String)
    (h : (∃ row, cs.db.queryRowScan (issuedQuery transport) (issuedArgs activity transport)
            = .ok row)
      ∨ (∃ tbl e, (activity, tbl) ∈ defaultFactors ∧ (transport, e) ∈ tbl)
      ∨ (activity ≠ "shipping" ∧ activity ≠ "electricity" ∧ activity ≠ "fuel")) :
    getEmissionFactor cs rnd1 activity transport
      = getEmissionFactor cs rnd2 activity transport := by
  rw [getEmissionFactor_eq, getEmissionFactor_eq]
  rcases h with ⟨row, hrow⟩ | ⟨tbl, e, ha, he⟩ | ⟨h1, h2, h3⟩
  · rw [hrow]
  · rw [getDefaultEmissionFactor_table rnd1 activity transport tbl e ha he,
      getDefaultEmissionFactor_table rnd2 activity transport tbl e ha he]
  · rw [getDefaultEmissionFactor_unknown rnd1 activity transport h1 h2 h3,
      getDefaultEmissionFactor_unknown rnd2 activity transport h1 h2 h3]

theorem calculateCarbonFootprint_idempotent_away_from_enumeration (cs : CarbonService)
    (rnd1 rnd2 now1 now2 : Nat) (req : CalculateRequest)
    (h : (∃ row, cs.db.queryRowScan (issuedQuery req.Transport)
            (issuedArgs req.Activity req.Transport) = .ok row)
      ∨ (∃ tbl e, (req.Activity, tbl) ∈ defaultFactors ∧ (req.Transport, e) ∈ tbl)
      ∨ (req.Activity ≠ "shipping" ∧ req.Activity ≠ "electricity" ∧ req.Activity ≠ "fuel")) :
    ∃ resp1 resp2,
      calculateCarbonFootprint cs rnd1 now1 req = .ok resp1
      ∧ calculateCarbonFootprint cs rnd2 now2 req = .ok resp2
      ∧ resp1.CarbonFootprint = resp2.CarbonFootprint
      ∧ resp1.Breakdown = resp2.Breakdown
      ∧ resp1.Calculation = resp2.Calculation
      ∧ resp1.Suggestions = resp2.Suggestions := by
  obtain ⟨factor, hf⟩ := getEmissionFactor_ok cs rnd1 req.Activity req.Transport
  have hf2 : getEmissionFactor cs rnd2 req.Activity req.Transport = .ok factor := by
    rw [← getEmissionFactor_rnd_irrelevant cs rnd1 rnd2 req.Activity req.Transport h, hf]
  exact ⟨_, _, calculateCarbonFootprint_of_factor cs rnd1 now1 req factor hf,
    calculateCarbonFootprint_of_factor cs rnd2 now2 req factor hf2, rfl, rfl, rfl, rfl⟩

/-- C9 fails on the code: with the factor source unavailable, the same shipping
request without a mode (one tonne, 1000 km) is answered with footprint 996 when the
map enumeration starts at the air entry and with 15 when it starts at the sea entry;
the two calls differ in nothing but the enumeration order and the results differ. -/
theorem C9_enumeration_breaks_idempotence :
    ∃ resp1 resp2,
      calculateCarbonFootprint ⟨unavailableDB⟩ 0 0 shippingNoMode = .ok resp1
      ∧ calculateCarbonFootprint ⟨unavailableDB⟩ 1 0 shippingNoMode = .ok resp2
      ∧ resp1.CarbonFootprint = 996 ∧ resp2.CarbonFootprint = 15
      ∧ resp1.CarbonFootprint ≠ resp2.CarbonFootprint := by
  obtain ⟨h0, h1⟩ := getDefaultEmissionFactor_shipping_noMode
  have e1 : mathRound ((formulaSwitch shippingNoMode
      (getDefaultEmissionFactor 0 "shipping" "")).1 * 1000) / 1000 = 996 := by
    rw [h0, show (formulaSwitch shippingNoMode
        ⟨0, "shipping", "air", 0.996, "kg_co2e_per_tonne_km", "IPCC 2023"⟩).1 * 1000
          = ((996000 : ℤ) : ℚ) by
        simp [formulaSwitch, shippingNoMode, calculateShipping]
        norm_num,
      mathRound_intCast]
    norm_num
  have e2 : mathRound ((formulaSwitch shippingNoMode
      (getDefaultEmissionFactor 1 "shipping" "")).1 * 1000) / 1000 = 15 := by
    rw [h1, show (formulaSwitch shippingNoMode
        ⟨0, "shipping", "sea", 0.015, "kg_co2e_per_tonne_km", "IPCC 2023"⟩).1 * 1000
          = ((15000 : ℤ) : ℚ) by
        simp [formulaSwitch, shippingNoMode, calculateShipping]
        norm_num,
      mathRound_intCast]
    norm_num
  refine ⟨_, _,
    calculateCarbonFootprint_of_factor _ 0 0 shippingNoMode _
      (getEmissionFactor_unavailable 0 _ _),
    calculateCarbonFootprint_of_factor _ 1 0 shippingNoMode _
      (getEmissionFactor_unavailable 1 _ _), e1, e2, ?_⟩
  show mathRound ((formulaSwitch shippingNoMode
      (getDefaultEmissionFactor 0 "shipping" "")).1 * 1000) / 1000
    ≠ mathRound ((formulaSwitch shippingNoMode
      (getDefaultEmissionFactor 1 "shipping" "")).1 * 1000) / 1000
  rw [e1, e2]
  norm_num

/-! ## The calculation record -/

theorem formulaSwitch_record (req : CalculateRequest) (factor : EmissionFactor) :
    (formulaSwitch req factor).2.2.lookup "formula" = some (.str (formulaName req.Activity))
    ∧ (formulaSwitch req factor).2.2.lookup "values"
        = some (.obj (formulaSwitch req factor).2.1)
    ∧ (formulaSwitch req factor).2.2.lookup "result"
        = (if req.Activity = "shipping" ∨ req.Activity = "electricity" ∨ req.Activity = "fuel"
            then some (.num (formulaSwitch req factor).1) else none) := by
  refine ⟨?_, ?_, ?_⟩
  · unfold formulaSwitch formulaName
    by_cases hs : req.Activity = "shipping"
    · simp [hs, calculateShipping, List.lookup]
    · by_cases he : req.Activity = "electricity"
      · simp [he, calculateElectricity, List.lookup]
      · by_cases hu : req.Activity = "fuel"
        · simp [hu, calculateFuel, List.lookup]
        · simp [hs, he, hu, List.lookup]
  · unfold formulaSwitch
    by_cases hs : req.Activity = "shipping"
    · simp [hs, calculateShipping, List.lookup]
    · by_cases he : req.Activity = "electricity"
      · simp [he, calculateElectricity, List.lookup]
      · by_cases hu : req.Activity = "fuel"
        · simp [hu, calculateFuel, List.lookup]
        · simp [hs, he, hu, List.lookup]
  · unfold formulaSwitch
    by_cases hs : req.Activity = "shipping"
    · simp [hs, calculateShipping, List.lookup]
    · by_cases he : req.Activity = "electricity"
      · simp [he, calculateElectricity, List.lookup]
      · by_cases hu : req.Activity = "fuel"
        · simp [hu, calculateFuel, List.lookup]
        · simp [hs, he, hu, List.lookup]

/-- C10 on the code: for every request, state of the factor source and enumeration
order, the calculation record of the response holds the symbolic name of the
formula under formula and the breakdown of the response under values; under result
it holds the raw footprint for shipping, electricity and fuel, and holds nothing for
the generic formula of any other activity, as for commute with amount 10. -/
theorem C10_calculation_record (cs : CarbonService) (rnd now : Nat) (req : CalculateRequest) :
    (∃ factor resp,
      getEmissionFactor cs rnd req.Activity req.Transport = .ok factor
      ∧ calculateCarbonFootprint cs rnd now req = .ok resp
      ∧ resp.Calculation.lookup "formula" = some (.str (formulaName req.Activity))
      ∧ resp.Calculation.lookup "values" = some (.obj resp.Breakdown)
      ∧ resp.Calculation.lookup "result"
          = (if req.Activity = "shipping" ∨ req.Activity = "electricity"
                ∨ req.Activity = "fuel"
              then some (.num (formulaSwitch req factor).1) else none))
    ∧ ∃ resp, calculateCarbonFootprint ⟨unavailableDB⟩ rnd now commute10 = .ok resp
        ∧ resp.Calculation
            = [ ("formula", .str "amount × emission_factor"), ("values", .obj resp.Breakdown) ]
        ∧ resp.Calculation.lookup "result" = none := by
  constructor
  · obtain ⟨factor, hf⟩ := getEmissionFactor_ok cs rnd req.Activity req.Transport
    obtain ⟨h1, h2, h3⟩ := formulaSwitch_record req factor
    exact ⟨factor, _, hf, calculateCarbonFootprint_of_factor cs rnd now req factor hf,
      h1, h2, h3⟩
  · refine ⟨_, calculateCarbonFootprint_of_factor _ rnd now commute10 _
      (getEmissionFactor_unavailable rnd _ _), ?_, ?_⟩
    · simp [formulaSwitch, commute10]
    · simp [formulaSwitch, commute10, List.lookup]

/-! ## Unit and metadata of the request -/

theorem formulaSwitch_congr (req1 req2 : CalculateRequest) (factor : EmissionFactor)
    (hA : req1.Activity = req2.Activity) (hW : req1.Weight = req2.Weight)
    (hD : req1.Distance = req2.Distance) (hF : req1.From = req2.From)
    (hT : req1.To = req2.To) (hM : req1.Transport = req2.Transport)
    (hN : req1.Amount = req2.Amount) :
    formulaSwitch req1 factor = formulaSwitch req2 factor := by
  simp only [formulaSwitch, calculateShipping, calculateElectricity, calculateFuel,
    hA, hW, hD, hF, hT, hM, hN]

theorem generateSuggestions_congr (req1 req2 : CalculateRequest) (footprint : ℚ)
    (hA : req1.Activity = req2.Activity) (hM : req1.Transport = req2.Transport) :
    generateSuggestions req1 footprint = generateSuggestions req2 footprint := by
  simp only [generateSuggestions, hA, hM]

/-- C11: the unit and the metadata of the request never influence the result.  Two
requests that agree on activity, weight, distance, origin, destination, mode and
amount, and so differ at most in unit and metadata, get the same raw footprint,
breakdown and calculation record from the formula for every factor, the same
suggestions for every footprint, and, against the same factor source and
enumeration order, responses with the same CarbonFootprint, Breakdown, Calculation
and Suggestions. -/
theorem C11_unit_metadata_irrelevant (cs : CarbonService) (rnd now1 now2 : Nat)
    (req1 req2 : CalculateRequest)
    (hA : req1.Activity = req2.Activity) (hW : req1.Weight = req2.Weight)
    (hD : req1.Distance = req2.Distance) (hF : req1.From = req2.From)
    (hT : req1.To = req2.To) (hM : req1.Transport = req2.Transport)
    (hN : req1.Amount = req2.Amount) :
    (∀ factor, formulaSwitch req1 factor = formulaSwitch req2 factor)
    ∧ (∀ footprint, generateSuggestions req1 footprint = generateSuggestions req2 footprint)
    ∧ getEmissionFactor cs rnd req1.Activity req1.Transport
        = getEmissionFactor cs rnd req2.Activity req2.Transport
    ∧ ∃ resp1 resp2,
        calculateCarbonFootprint cs rnd now1 req1 = .ok resp1
        ∧ calculateCarbonFootprint cs rnd now2 req2 = .ok resp2
        ∧ resp1.CarbonFootprint = resp2.CarbonFootprint
        ∧ resp1.Breakdown = resp2.Breakdown
        ∧ resp1.Calculation = resp2.Calculation
        ∧ resp1.Suggestions = resp2.Suggestions := by
  have hsw := fun factor => formulaSwitch_congr req1 req2 factor hA hW hD hF hT hM hN
  have hsg := fun fp => generateSuggestions_congr req1 req2 fp hA hM
  refine ⟨hsw, hsg, by rw [hA, hM], ?_⟩
  obtain ⟨factor, hf⟩ := getEmissionFactor_ok cs rnd req1.Activity req1.Transport
  have hf2 : getEmissionFactor cs rnd req2.Activity req2.Transport = .ok factor := by
    rw [← hA, ← hM, hf]
  refine ⟨_, _, calculateCarbonFootprint_of_factor cs rnd now1 req1 factor hf,
    calculateCarbonFootprint_of_factor cs rnd now2 req2 factor hf2, ?_, ?_, ?_, ?_⟩
  · show mathRound ((formulaSwitch req1 factor).1 * 1000) / 1000
      = mathRound ((formulaSwitch req2 factor).1 * 1000) / 1000
    rw [hsw]
  · show (formulaSwitch req1 factor).2.1 = (formulaSwitch req2 factor).2.1
    rw [hsw]
  · show (formulaSwitch req1 factor).2.2 = (formulaSwitch req2 factor).2.2
    rw [hsw]
  · show generateSuggestions req1 (formulaSwitch req1 factor).1
      = generateSuggestions req2 (formulaSwitch req2 factor).1
    rw [hsw, hsg]

/-- The hypotheses of C11 are met by the grid request with and without a unit and
metadata: the two differ in both fields and get the same four results. -/
theorem C11_unit_metadata_irrelevant_witness :
    grid100Tagged.Unit ≠ grid100.Unit
    ∧ grid100Tagged.Metadata.length ≠ grid100.Metadata.length
    ∧ ∃ resp1 resp2,
        calculateCarbonFootprint ⟨unavailableDB⟩ 0 5 grid100Tagged = .ok resp1
        ∧ calculateCarbonFootprint ⟨unavailableDB⟩ 0 9 grid100 = .ok resp2
        ∧ resp1.CarbonFootprint = resp2.CarbonFootprint
        ∧ resp1.Breakdown = resp2.Breakdown
        ∧ resp1.Calculation = resp2.Calculation
        ∧ resp1.Suggestions = resp2.Suggestions :=
  ⟨by decide, by decide,
    (C11_unit_metadata_irrelevant ⟨unavailableDB⟩ 0 5 9 grid100Tagged grid100
      rfl rfl rfl rfl rfl rfl rfl).2.2.2⟩

/-! ## The offsetting suggestion and the rounded footprint -/

theorem roundHalfAway_le_of_le (x : ℚ) (n : ℤ) (hn : 0 ≤ n) (hx : x ≤ n) :
    roundHalfAway x ≤ n := by
  unfold roundHalfAway
  split
  · have hlt : x + 1 / 2 < ((n + 1 : ℤ) : ℚ) := by push_cast; linarith
    have := Int.floor_lt.mpr hlt
    omega
  · rename_i hneg
    have hneg : x < 0 := not_le.mp hneg
    have : (0 : ℤ) ≤ ⌊-x + 1 / 2⌋ := Int.floor_nonneg.mpr (by linarith)
    omega

theorem raw_gt_of_rounded_gt (raw : ℚ) (h : mathRound (raw * 1000) / 1000 > 1000) :
    raw > 1000 := by
  by_contra hle
  have hle : raw ≤ 1000 := not_lt.mp hle
  have hx : raw * 1000 ≤ ((1000000 : ℤ) : ℚ) := by push_cast; linarith
  have hr := roundHalfAway_le_of_le (raw * 1000) 1000000 (by norm_num) hx
  have hq : mathRound (raw * 1000) ≤ 1000000 := by
    unfold mathRound
    exact_mod_cast hr
  have : mathRound (raw * 1000) / 1000 ≤ 1000 := by
    rw [div_le_iff₀ (by norm_num : (0 : ℚ) < 1000)]
    linarith
  linarith

theorem generateSuggestions_getLast (req : CalculateRequest) (footprint : ℚ)
    (h : footprint > 1000) :
    (generateSuggestions req footprint).getLast?
      = some "This is a high-impact activity - consider carbon offsetting" := by
  unfold generateSuggestions
  simp only [if_pos h]
  exact List.getLast?_concat _

theorem roundHalfAway_justOver : roundHalfAway (1000000.4 : ℚ) = 1000000 := by
  unfold roundHalfAway
  rw [if_pos (by norm_num)]
  rw [Int.floor_eq_iff]
  constructor <;> norm_num

/-- C12: the offsetting suggestion is decided on the raw footprint, before rounding.
For every request, state of the factor source and enumeration order, the
suggestions of the response are those of the raw footprint, and whenever the
returned, rounded CarbonFootprint exceeds 1000 the offsetting suggestion is the
last suggestion.  The converse fails: with the factor source unavailable the
activity commute with amount 1000.0004 resolves the default factor 1, is answered
with CarbonFootprint exactly 1000, and still carries the offsetting suggestion. -/
theorem C12_offsetting_on_raw_footprint (cs : CarbonService) (rnd now : Nat)
    (req : CalculateRequest) :
    (∃ factor resp,
      getEmissionFactor cs rnd req.Activity req.Transport = .ok factor
      ∧ calculateCarbonFootprint cs rnd now req = .ok resp
      ∧ resp.Suggestions = generateSuggestions req (formulaSwitch req factor).1
      ∧ (resp.CarbonFootprint > 1000 →
          resp.Suggestions.getLast?
            = some "This is a high-impact activity - consider carbon offsetting"))
    ∧ ∃ resp, calculateCarbonFootprint ⟨unavailableDB⟩ rnd now commuteJustOver = .ok resp
        ∧ (getDefaultEmissionFactor rnd "commute" "").Factor = 1.0
        ∧ resp.CarbonFootprint = 1000
        ∧ ¬ resp.CarbonFootprint > 1000
        ∧ resp.Suggestions = ["This is a high-impact activity - consider carbon offsetting"] := by
  constructor
  · obtain ⟨factor, hf⟩ := getEmissionFactor_ok cs rnd req.Activity req.Transport
    refine ⟨factor, _, hf, calculateCarbonFootprint_of_factor cs rnd now req factor hf,
      rfl, ?_⟩
    intro h
    exact generateSuggestions_getLast req _ (raw_gt_of_rounded_gt _ h)
  · have hc := (getDefaultEmissionFactor_exact rnd).2.2
    have hraw : (formulaSwitch commuteJustOver (ultimateFallback "commute" "")).1
        = 1000.0004 := by
      rw [formulaSwitch_not_shipping _ _ (by decide)]
      simp only [commuteJustOver, ultimateFallback]
      norm_num
    have hfp : mathRound ((formulaSwitch commuteJustOver
        (getDefaultEmissionFactor rnd "commute" "")).1 * 1000) / 1000 = 1000 := by
      rw [hc, hraw, show (1000.0004 : ℚ) * 1000 = 1000000.4 by norm_num]
      unfold mathRound
      rw [roundHalfAway_justOver]
      norm_num
    refine ⟨_, calculateCarbonFootprint_of_factor _ rnd now commuteJustOver _
      (getEmissionFactor_unavailable rnd _ _), ?_, hfp, ?_, ?_⟩
    · rw [hc]; rfl
    · show ¬ mathRound ((formulaSwitch commuteJustOver
        (getDefaultEmissionFactor rnd "commute" "")).1 * 1000) / 1000 > 1000
      rw [hfp]
      norm_num
    · show generateSuggestions commuteJustOver
        (formulaSwitch commuteJustOver (getDefaultEmissionFactor rnd "commute" "")).1 = _
      rw [hc, hraw]
      simp [generateSuggestions, commuteJustOver]
      norm_num

/-- The hypothesis of C12 is met by the NYC to London example with the factor source
unavailable: its CarbonFootprint 2781.33 exceeds 1000 and the offsetting suggestion
is the last one. -/
theorem C12_offsetting_on_raw_footprint_witness :
    ∃ resp, calculateCarbonFootprint ⟨unavailableDB⟩ 0 0 nycLondonAir = .ok resp
      ∧ resp.CarbonFootprint > 1000
      ∧ resp.Suggestions.getLast?
          = some "This is a high-impact activity - consider carbon offsetting" := by
  obtain ⟨factor, resp, hf, hc, _, hlast⟩ :=
    (C12_offsetting_on_raw_footprint ⟨unavailableDB⟩ 0 0 nycLondonAir).1
  have hfac : factor = ⟨0, "shipping", "air", 0.996, "kg_co2e_per_tonne_km", "IPCC 2023"⟩ := by
    have h2 : getEmissionFactor ⟨unavailableDB⟩ 0 nycLondonAir.Activity nycLondonAir.Transport
        = .ok (getDefaultEmissionFactor 0 "shipping" "air") :=
      getEmissionFactor_unavailable 0 _ _
    rw [hf] at h2
    have h4 : factor = getDefaultEmissionFactor 0 "shipping" "air" := Except.ok.inj h2
    rw [h4]
    simp [getDefaultEmissionFactor, defaultFactors, List.lookup]
  have hgt : resp.CarbonFootprint > 1000 := by
    have h3 := calculateCarbonFootprint_of_factor ⟨unavailableDB⟩ 0 0 nycLondonAir factor hf
    rw [hc] at h3
    injection h3 with h3
    rw [h3, hfac]
    show mathRound ((formulaSwitch nycLondonAir
      ⟨0, "shipping", "air", 0.996, "kg_co2e_per_tonne_km", "IPCC 2023"⟩).1 * 1000) / 1000
        > 1000
    rw [show (formulaSwitch nycLondonAir
        ⟨0, "shipping", "air", 0.996, "kg_co2e_per_tonne_km", "IPCC 2023"⟩).1 * 1000
          = ((2781330 : ℤ) : ℚ) by
        simp [formulaSwitch, nycLondonAir, calculateShipping, estimateDistance, distances,
          List.lookup]
        norm_num,
      mathRound_intCast]
    norm_num
  exact ⟨resp, hc, hgt, hlast hgt⟩

/-! ## float64 arithmetic: sign, range and rounding -/

namespace F64

theorem searchExp_spec (num den : Nat) (fuel : Nat) (lo hi : Int) (h : lo ≤ hi) :
    lo ≤ searchExp num den fuel lo hi ∧ searchExp num den fuel lo hi ≤ hi
      ∧ (searchExp num den fuel lo hi = lo
          ∨ pow2Le num den (searchExp num den fuel lo hi + 52) = true) := by
  induction fuel generalizing lo hi with
  | zero => exact ⟨le_refl _, h, Or.inl rfl⟩
  | succ fuel ih =>
    unfold searchExp
    split_ifs with h1 h2
    · exact ⟨le_refl _, h, Or.inl rfl⟩
    · have hmid : (lo + hi + 1) / 2 ≤ hi := by omega
      obtain ⟨a, b, c⟩ := ih ((lo + hi + 1) / 2) hi hmid
      refine ⟨by omega, b, ?_⟩
      rcases c with c | c
      · exact Or.inr (by rw [c]; exact h2)
      · exact Or.inr c
    · have hmid : lo ≤ (lo + hi + 1) / 2 - 1 := by omega
      obtain ⟨a, b, c⟩ := ih lo ((lo + hi + 1) / 2 - 1) hmid
      exact ⟨a, by omega, c⟩

theorem searchExp_boundary (num den : Nat) (fuel : Nat) (lo hi : Int) (h : lo ≤ hi)
    (hfuel : hi - lo < 2 ^ fuel) :
    searchExp num den fuel lo hi = hi
      ∨ pow2Le num den (searchExp num den fuel lo hi + 1 + 52) = false := by
  induction fuel generalizing lo hi with
  | zero =>
    have : hi = lo := by
      have h1 : hi - lo < 1 := by simpa using hfuel
      omega
    exact Or.inl (by rw [this]; rfl)
  | succ fuel ih =>
    have hpow : (2 : ℤ) ^ (fuel + 1) = 2 * 2 ^ fuel := by rw [pow_succ]; ring
    rw [hpow] at hfuel
    unfold searchExp
    split_ifs with h1 h2
    · exact Or.inl (by omega)
    · exact ih ((lo + hi + 1) / 2) hi (by omega) (by omega)
    · rcases ih lo ((lo + hi + 1) / 2 - 1) (by omega) (by omega) with hr | hr
      · refine Or.inr ?_
        rw [hr]
        have : (lo + hi + 1) / 2 - 1 + 1 + 52 = (lo + hi + 1) / 2 + 52 := by ring
        rw [this]
        simpa using h2
      · exact Or.inr hr

/-- The bisection of `lastPlace` does not run out of fuel: its result is the upper
end of the range or the next exponent is already too large. -/
theorem lastPlace_boundary (num den : Nat) :
    lastPlace num den = 972 ∨ pow2Le num den (lastPlace num den + 1 + 52) = false :=
  searchExp_boundary num den 12 (-1074) 972 (by norm_num) (by norm_num)

set_option exponentiation.threshold 2100 in
theorem lastPlace_le (num den : Nat) (h : num < den * 2 ^ 1023) : lastPlace num den ≤ 970 := by
  obtain ⟨a, b, c⟩ := searchExp_spec num den 12 (-1074) 972 (by norm_num)
  unfold lastPlace
  rcases c with c | c
  · omega
  · by_contra hcon
    have hge : 971 ≤ searchExp num den 12 (-1074) 972 := by omega
    unfold pow2Le at c
    rw [if_pos (by omega)] at c
    have hc : den * 2 ^ (searchExp num den 12 (-1074) 972 + 52).toNat ≤ num := by
      simpa using c
    have hpow : 2 ^ 1023 ≤ 2 ^ (searchExp num den 12 (-1074) 972 + 52).toNat :=
      Nat.pow_le_pow_right (by norm_num) (by omega)
    have := Nat.mul_le_mul_left den hpow
    omega

theorem pack_sign (neg : Bool) (m : Nat) (e : Int) :
    (∃ m2 e2, pack neg m e = .finite neg m2 e2) ∨ pack neg m e = .inf neg := by
  unfold pack
  simp only
  split_ifs
  · exact Or.inr rfl
  · exact Or.inl ⟨_, _, rfl⟩
  · exact Or.inr rfl
  · exact Or.inl ⟨_, _, rfl⟩

theorem pack_finite (neg : Bool) (m : Nat) (e : Int) (h : e ≤ 970) :
    ∃ m2 e2, pack neg m e = .finite neg m2 e2 := by
  unfold pack
  simp only
  split_ifs
  · omega
  · exact ⟨_, _, rfl⟩
  · omega
  · exact ⟨_, _, rfl⟩

theorem roundNE_sign (neg : Bool) (num den : Nat) :
    (∃ m e, roundNE neg num den = .finite neg m e) ∨ roundNE neg num den = .inf neg := by
  unfold roundNE
  split
  · exact Or.inl ⟨_, _, rfl⟩
  · exact pack_sign _ _ _

theorem roundNE_zero (neg : Bool) (den : Nat) : roundNE neg 0 den = .finite neg 0 0 := by
  simp [roundNE]

theorem roundNE_finite (neg : Bool) (num den : Nat) (h : num < den * 2 ^ 1023) :
    ∃ m e, roundNE neg num den = .finite neg m e := by
  unfold roundNE
  split
  · exact ⟨_, _, rfl⟩
  · exact pack_finite _ _ _ (lastPlace_le num den h)

theorem xor_false_right (s : Bool) : xor s false = s := by cases s <;> rfl

theorem mul_finite (s1 s2 : Bool) (m1 m2 : Nat) (e1 e2 : Int) :
    mul (.finite s1 m1 e1) (.finite s2 m2 e2)
      = if 0 ≤ e1 + e2 then roundNE (xor s1 s2) (m1 * m2 * 2 ^ (e1 + e2).toNat) 1
        else roundNE (xor s1 s2) (m1 * m2) (2 ^ (-(e1 + e2)).toNat) := rfl

theorem div_finite (s1 s2 : Bool) (m1 m2 : Nat) (e1 e2 : Int) :
    div (.finite s1 m1 e1) (.finite s2 m2 e2)
      = if m2 = 0 then (if m1 = 0 then .nan else .inf (xor s1 s2))
        else if 0 ≤ e1 - e2 then roundNE (xor s1 s2) (m1 * 2 ^ (e1 - e2).toNat) m2
        else roundNE (xor s1 s2) m1 (m2 * 2 ^ (-(e1 - e2)).toNat) := rfl

theorem round_finite (s : Bool) (m : Nat) (e : Int) :
    round (.finite s m e)
      = if 0 ≤ e then .finite s m e
        else .finite s ((m + 2 ^ ((-e).toNat - 1)) / 2 ^ (-e).toNat) 0 := rfl

theorem nonNeg_roundNE (s : Bool) (num den : Nat) (h : s = false ∨ num = 0) :
    NonNeg (roundNE s num den) := by
  rcases h with h | h
  · rcases roundNE_sign s num den with ⟨m, e, hr⟩ | hr
    · rw [hr]; exact Or.inl h
    · rw [hr]; exact h
  · subst h
    rw [roundNE_zero]
    exact Or.inr rfl

theorem mul_nonNeg_of_isPos (x y : F64) (hx : NonNeg x) (hy : IsPos y) : NonNeg (mul x y) := by
  cases y with
  | finite s2 m2 e2 =>
    obtain ⟨hs2, hm2⟩ := hy
    subst hs2
    cases x with
    | finite s1 m1 e1 =>
      have hx2 : s1 = false ∨ m1 = 0 := hx
      rw [mul_finite, xor_false_right]
      split
      · apply nonNeg_roundNE
        rcases hx2 with h | h
        · exact Or.inl h
        · exact Or.inr (by rw [h]; simp)
      · apply nonNeg_roundNE
        rcases hx2 with h | h
        · exact Or.inl h
        · exact Or.inr (by rw [h]; simp)
    | inf s1 =>
      have hx2 : s1 = false := hx
      subst hx2
      simp [mul, hm2, NonNeg]
    | nan => exact absurd hx (by simp [NonNeg])
  | inf s => exact absurd hy (by simp [IsPos])
  | nan => exact absurd hy (by simp [IsPos])

theorem mul_nonNeg_of_finite (s1 s2 : Bool) (m1 m2 : Nat) (e1 e2 : Int)
    (h1 : s1 = false ∨ m1 = 0) (h2 : s2 = false ∨ m2 = 0) :
    NonNeg (mul (.finite s1 m1 e1) (.finite s2 m2 e2)) := by
  have key : xor s1 s2 = false ∨ m1 * m2 = 0 := by
    rcases h1 with h1 | h1
    · rcases h2 with h2 | h2
      · exact Or.inl (by rw [h1, h2]; rfl)
      · exact Or.inr (by rw [h2]; simp)
    · exact Or.inr (by rw [h1]; simp)
  rw [mul_finite]
  split
  · apply nonNeg_roundNE
    rcases key with h | h
    · exact Or.inl h
    · exact Or.inr (by rw [h]; simp)
  · exact nonNeg_roundNE _ _ _ key

set_option exponentiation.threshold 2100 in
theorem div_thousand_finite (s : Bool) (m : Nat) (e : Int) (hm : m < 2 ^ 53) (he : e ≤ 971)
    (h : s = false ∨ m = 0) :
    ∃ m2 e2, div (.finite s m e) thousand = .finite s m2 e2 ∧ (s = false ∨ m2 = 0) := by
  by_cases hz : m = 0
  · subst hz
    refine ⟨0, 0, ?_, Or.inr rfl⟩
    rw [thousand, div_finite, xor_false_right, if_neg (by norm_num)]
    split_ifs <;> simp [roundNE_zero]
  · have hs : s = false := by
      rcases h with h | h
      · exact h
      · exact absurd h hz
    have hfin : ∃ m2 e2, div (.finite s m e) thousand = .finite s m2 e2 := by
      rw [thousand, div_finite, xor_false_right, if_neg (by norm_num), sub_zero]
      split
      · rename_i h0
        apply roundNE_finite
        have hlt : m * 2 ^ e.toNat < 2 ^ 53 * 2 ^ e.toNat :=
          Nat.mul_lt_mul_of_pos_right hm (by positivity)
        have hle : 2 ^ 53 * 2 ^ e.toNat ≤ 2 ^ 53 * 2 ^ 971 :=
          Nat.mul_le_mul_left _ (Nat.pow_le_pow_right (by norm_num) (by omega))
        have heq : 2 ^ 53 * 2 ^ 971 ≤ 1000 * 2 ^ 1023 := by
          rw [show 1023 = 971 + 52 by norm_num, pow_add, ← mul_assoc, mul_comm 1000,
            mul_assoc, mul_comm (2 ^ 53)]
          exact Nat.mul_le_mul_left _ (by norm_num)
        exact lt_of_lt_of_le hlt (le_trans hle heq)
      · apply roundNE_finite
        have h1 : (1 : ℕ) ≤ 1000 * 2 ^ (-e).toNat := Nat.one_le_iff_ne_zero.mpr (by positivity)
        have h2 : (2 : ℕ) ^ 53 ≤ 2 ^ 1023 := Nat.pow_le_pow_right (by norm_num) (by norm_num)
        calc m < 2 ^ 53 := hm
          _ ≤ 1 * 2 ^ 1023 := by rw [one_mul]; exact h2
          _ ≤ 1000 * 2 ^ (-e).toNat * 2 ^ 1023 := Nat.mul_le_mul_right _ h1
    obtain ⟨m2, e2, h2⟩ := hfin
    exact ⟨m2, e2, h2, Or.inl hs⟩

theorem div_thousand_nonNeg (x : F64) (hx : NonNeg x) : NonNeg (div x thousand) := by
  cases x with
  | finite s m e =>
    have hx2 : s = false ∨ m = 0 := hx
    rw [thousand, div_finite, xor_false_right, if_neg (by norm_num)]
    split
    · apply nonNeg_roundNE
      rcases hx2 with h | h
      · exact Or.inl h
      · exact Or.inr (by rw [h]; simp)
    · exact nonNeg_roundNE _ _ _ hx2
  | inf s =>
    have hx2 : s = false := hx
    subst hx2
    simp [div, thousand, NonNeg]
  | nan => exact absurd hx (by simp [NonNeg])

theorem round_nonNeg (x : F64) (hx : NonNeg x) : NonNeg (round x) := by
  cases x with
  | finite s m e =>
    have hx2 : s = false ∨ m = 0 := hx
    rw [round_finite]
    split
    · exact hx
    · rcases hx2 with h | h
      · exact Or.inl h
      · refine Or.inr ?_
        subst h
        rw [Nat.zero_add]
        apply Nat.div_eq_of_lt
        apply Nat.pow_lt_pow_right (by norm_num)
        omega
  | inf s => exact hx
  | nan => exact hx

theorem thousand_isPos : IsPos thousand := ⟨rfl, by decide⟩

theorem isNearestHalfAway_self (n : ℤ) : IsNearestHalfAway (n : ℚ) n := by
  refine ⟨by simp, fun h => ?_⟩
  simp at h

theorem isNearestHalfAway_neg (x : ℚ) (n : ℤ) (h : IsNearestHalfAway x n) :
    IsNearestHalfAway (-x) (-n) := by
  obtain ⟨h1, h2⟩ := h
  have e1 : |((-n : ℤ) : ℚ) - -x| = |(n : ℚ) - x| := by
    push_cast
    rw [← abs_neg]
    congr 1
    ring
  refine ⟨by rw [e1]; exact h1, fun h => ?_⟩
  rw [e1] at h
  have := h2 h
  push_cast
  rwa [abs_neg, abs_neg]

theorem natDiv_nearest (m k : Nat) (hk : 1 ≤ k) :
    IsNearestHalfAway ((m : ℚ) * (2 : ℚ) ^ (-(k : ℤ)))
      (((m + 2 ^ (k - 1)) / 2 ^ k : ℕ) : ℤ) := by
  obtain ⟨j, rfl⟩ : ∃ j, k = j + 1 := ⟨k - 1, by omega⟩
  simp only [Nat.add_sub_cancel]
  set n0 := (m + 2 ^ j) / 2 ^ (j + 1) with hn0
  have hP : (0 : ℕ) < 2 ^ (j + 1) := by positivity
  have h1 : n0 * 2 ^ (j + 1) ≤ m + 2 ^ j := Nat.div_mul_le_self _ _
  have h2 : m + 2 ^ j < (n0 + 1) * 2 ^ (j + 1) := by
    have := Nat.lt_succ_iff.mpr (Nat.le_refl n0)
    rw [hn0] at this ⊢
    exact (Nat.div_lt_iff_lt_mul hP).mp (Nat.lt_succ_self _)
  have h1q : (n0 : ℚ) * 2 ^ (j + 1) ≤ m + 2 ^ j := by exact_mod_cast h1
  have h2q : (m : ℚ) + 2 ^ j < (n0 + 1) * 2 ^ (j + 1) := by exact_mod_cast h2
  have hPq : (0 : ℚ) < 2 ^ j := by positivity
  have hx : (m : ℚ) * (2 : ℚ) ^ (-((j + 1 : ℕ) : ℤ)) = m / (2 * 2 ^ j) := by
    rw [zpow_neg, zpow_natCast, pow_succ, mul_comm ((2 : ℚ) ^ j) 2, div_eq_mul_inv]
  rw [hx]
  rw [pow_succ] at h1q h2q
  have hd : (0 : ℚ) < 2 * 2 ^ j := by positivity
  have hlow : -(1 / 2 : ℚ) < (n0 : ℚ) - m / (2 * 2 ^ j) := by
    rw [lt_sub_iff_add_lt, neg_add_lt_iff_lt_add, div_lt_iff₀ hd]
    nlinarith
  have hhigh : (n0 : ℚ) - m / (2 * 2 ^ j) ≤ 1 / 2 := by
    rw [sub_le_iff_le_add, ← sub_le_iff_le_add', le_div_iff₀ hd]
    nlinarith
  have hm0 : (0 : ℚ) ≤ m / (2 * 2 ^ j) := by positivity
  refine ⟨abs_le.mpr ⟨by push_cast; linarith, by push_cast; linarith⟩, fun he => ?_⟩
  push_cast at he ⊢
  rcases abs_eq (by norm_num : (0 : ℚ) ≤ 1 / 2) |>.mp he with h | h
  · rw [abs_of_nonneg hm0, abs_of_nonneg (by linarith)]
    linarith
  · linarith

theorem round_nearest (s : Bool) (m : Nat) (e : Int) :
    ∃ n : ℤ, (round (.finite s m e)).exactValue = some (n : ℚ)
      ∧ ∀ x, (F64.finite s m e).exactValue = some x → IsNearestHalfAway x n := by
  rw [round_finite]
  by_cases he : 0 ≤ e
  · rw [if_pos he]
    obtain ⟨k, rfl⟩ : ∃ k : ℕ, e = k := ⟨e.toNat, by omega⟩
    refine ⟨(if s then -1 else 1) * ((m * 2 ^ k : ℕ) : ℤ), ?_, ?_⟩
    · simp only [exactValue, zpow_natCast]
      congr 1
      cases s <;> push_cast <;> ring
    · intro x hx
      simp only [exactValue, zpow_natCast, Option.some.injEq] at hx
      have : x = (((if s then -1 else 1) * ((m * 2 ^ k : ℕ) : ℤ) : ℤ) : ℚ) := by
        rw [← hx]
        cases s <;> push_cast <;> ring
      rw [this]
      exact isNearestHalfAway_self _
  · rw [if_neg he]
    obtain ⟨k, hk, rfl⟩ : ∃ k : ℕ, 1 ≤ k ∧ e = -(k : ℤ) := ⟨(-e).toNat, by omega, by omega⟩
    have hk2 : (-(-(k : ℤ))).toNat = k := by omega
    rw [hk2]
    have key := natDiv_nearest m k hk
    cases s with
    | false =>
      refine ⟨(((m + 2 ^ (k - 1)) / 2 ^ k : ℕ) : ℤ), ?_, ?_⟩
      · simp only [exactValue, Bool.false_eq_true, if_false, zpow_zero, mul_one, one_mul,
          Int.cast_natCast]
      · intro x hx
        simp only [exactValue, Option.some.injEq] at hx
        rw [← hx]
        simpa using key
    | true =>
      refine ⟨-(((m + 2 ^ (k - 1)) / 2 ^ k : ℕ) : ℤ), ?_, ?_⟩
      · simp only [exactValue, if_true, zpow_zero, mul_one, neg_mul, one_mul, Int.cast_neg,
          Int.cast_natCast]
      · intro x hx
        simp only [exactValue, Option.some.injEq] at hx
        rw [← hx]
        have := isNearestHalfAway_neg _ _ key
        convert this using 1
        simp

theorem mantissa_error (num den : Nat) (hden : 0 < den) (e : Int) :
    |(mantissa num den e : ℚ) - (num : ℚ) / den / (2 : ℚ) ^ e| ≤ 1 / 2 := by
  unfold mantissa
  simp only
  set N : ℕ := if 0 ≤ e then num else num * 2 ^ (-e).toNat with hN
  set D : ℕ := if 0 ≤ e then den * 2 ^ e.toNat else den with hD
  have hDpos : 0 < D := by
    rw [hD]
    split
    · positivity
    · exact hden
  have hq : (num : ℚ) / den / (2 : ℚ) ^ e = (N : ℚ) / D := by
    have hden' : (den : ℚ) ≠ 0 := by exact_mod_cast hden.ne'
    by_cases he : 0 ≤ e
    · obtain ⟨k, rfl⟩ : ∃ k : ℕ, e = k := ⟨e.toNat, by omega⟩
      simp only [hN, hD, he, if_true, Int.toNat_ofNat, zpow_natCast]
      push_cast
      rw [div_div]
    · obtain ⟨k, rfl⟩ : ∃ k : ℕ, e = -(k : ℤ) := ⟨(-e).toNat, by omega⟩
      have hk2 : (-(-(k : ℤ))).toNat = k := by omega
      simp only [hN, hD, he, if_false, hk2, zpow_neg, zpow_natCast]
      push_cast
      field_simp
  rw [hq]
  have hdm : D * (N / D) + N % D = N := Nat.div_add_mod N D
  have hr : N % D < D := Nat.mod_lt _ hDpos
  have hDq : (0 : ℚ) < D := by exact_mod_cast hDpos
  have hNq : (N : ℚ) = D * (N / D : ℕ) + (N % D : ℕ) := by exact_mod_cast hdm.symm
  have hval : (N : ℚ) / D = (N / D : ℕ) + (N % D : ℕ) / D := by
    rw [hNq]
    field_simp
    ring
  rw [hval]
  have hrq0 : (0 : ℚ) ≤ (N % D : ℕ) / D := by positivity
  have hrq1 : ((N % D : ℕ) : ℚ) / D < 1 := by
    rw [div_lt_one hDq]
    exact_mod_cast hr
  split_ifs with h1 h2 h3
  · have : ((N % D : ℕ) : ℚ) / D < 1 / 2 := by
      rw [div_lt_iff₀ hDq]
      have : (2 : ℚ) * (N % D : ℕ) < D := by exact_mod_cast h1
      linarith
    rw [abs_le]
    constructor <;> linarith
  · have : (1 / 2 : ℚ) < ((N % D : ℕ) : ℚ) / D := by
      rw [lt_div_iff₀ hDq]
      have : (D : ℚ) < 2 * (N % D : ℕ) := by exact_mod_cast h2
      linarith
    rw [abs_le]
    push_cast
    constructor <;> linarith
  · have : ((N % D : ℕ) : ℚ) / D = 1 / 2 := by
      have h4 : 2 * (N % D) = D := by omega
      rw [div_eq_iff hDq.ne']
      have : (2 : ℚ) * (N % D : ℕ) = D := by exact_mod_cast h4
      linarith
    rw [abs_le]
    constructor <;> linarith
  · have : ((N % D : ℕ) : ℚ) / D = 1 / 2 := by
      have h4 : 2 * (N % D) = D := by omega
      rw [div_eq_iff hDq.ne']
      have : (2 : ℚ) * (N % D : ℕ) = D := by exact_mod_cast h4
      linarith
    rw [abs_le]
    push_cast
    constructor <;> linarith

theorem pack_value (neg : Bool) (M : Nat) (E : Int) (s : Bool) (m : Nat) (e : Int)
    (h : pack neg M E = .finite s m e) :
    s = neg ∧ (m : ℚ) * (2 : ℚ) ^ e = (M : ℚ) * (2 : ℚ) ^ E ∧ E ≤ e := by
  unfold pack at h
  simp only at h
  split_ifs at h with h1 h2 h3
  · injection h with hs hm he
    subst hs hm he h1
    refine ⟨rfl, ?_, by omega⟩
    rw [zpow_add_one₀ (by norm_num : (2 : ℚ) ≠ 0)]
    push_cast
    ring
  · injection h with hs hm he
    subst hs hm he
    exact ⟨rfl, rfl, le_refl _⟩

theorem roundNE_error (neg : Bool) (num den : Nat) (hden : 0 < den) (s : Bool) (m : Nat)
    (e : Int) (h : roundNE neg num den = .finite s m e) :
    s = neg ∧ |(m : ℚ) * (2 : ℚ) ^ e - (num : ℚ) / den| ≤ (2 : ℚ) ^ e / 2 := by
  unfold roundNE at h
  split_ifs at h with h0
  · injection h with hs hm he
    subst hs hm he h0
    refine ⟨rfl, ?_⟩
    simp
  · obtain ⟨hs, hv, hle⟩ := pack_value _ _ _ _ _ _ h
    refine ⟨hs, ?_⟩
    rw [hv]
    set E := lastPlace num den
    have hE : (0 : ℚ) < (2 : ℚ) ^ E := by positivity
    have herr := mantissa_error num den hden E
    have hfac : (mantissa num den E : ℚ) * (2 : ℚ) ^ E - (num : ℚ) / den
        = ((mantissa num den E : ℚ) - (num : ℚ) / den / (2 : ℚ) ^ E) * (2 : ℚ) ^ E := by
      field_simp
      ring
    rw [hfac, abs_mul, abs_of_pos hE]
    have hmono : (2 : ℚ) ^ E ≤ (2 : ℚ) ^ e := zpow_le_zpow_right₀ (by norm_num) hle
    calc |(mantissa num den E : ℚ) - (num : ℚ) / den / (2 : ℚ) ^ E| * (2 : ℚ) ^ E
        ≤ 1 / 2 * (2 : ℚ) ^ E := mul_le_mul_of_nonneg_right herr hE.le
      _ ≤ (2 : ℚ) ^ e / 2 := by linarith

theorem div_thousand_error (s1 : Bool) (m1 : Nat) (e1 : Int) (s : Bool) (m : Nat) (e : Int)
    (h : div (.finite s1 m1 e1) thousand = .finite s m e) :
    s = s1 ∧ |(m : ℚ) * (2 : ℚ) ^ e - (m1 : ℚ) * (2 : ℚ) ^ e1 / 1000| ≤ (2 : ℚ) ^ e / 2 := by
  rw [thousand, div_finite, xor_false_right, if_neg (by norm_num), sub_zero] at h
  split_ifs at h with h0
  · obtain ⟨hs, herr⟩ := roundNE_error _ _ _ (by norm_num) _ _ _ h
    refine ⟨hs, ?_⟩
    obtain ⟨k, rfl⟩ : ∃ k : ℕ, e1 = k := ⟨e1.toNat, by omega⟩
    simp only [Int.toNat_ofNat] at herr
    rw [zpow_natCast]
    push_cast at herr
    exact herr
  · have hpos : 0 < 1000 * 2 ^ (-e1).toNat := by positivity
    obtain ⟨hs, herr⟩ := roundNE_error _ _ _ hpos _ _ _ h
    refine ⟨hs, ?_⟩
    obtain ⟨k, rfl⟩ : ∃ k : ℕ, e1 = -(k : ℤ) := ⟨(-e1).toNat, by omega⟩
    have hk2 : (-(-(k : ℤ))).toNat = k := by omega
    rw [hk2] at herr
    have hq : (m1 : ℚ) * (2 : ℚ) ^ (-(k : ℤ)) / 1000 = (m1 : ℚ) / ((1000 * 2 ^ k : ℕ) : ℚ) := by
      rw [zpow_neg, zpow_natCast]
      push_cast
      rw [div_eq_mul_inv, mul_assoc, ← mul_inv, mul_comm ((2 : ℚ) ^ k) 1000, ← div_eq_mul_inv]
    rw [hq]
    exact herr

theorem ofRat_natCast (n : Nat) : ofRat (n : ℚ) = roundNE false n 1 := by
  have hnn : ¬ ((n : ℚ) < 0) := not_lt.mpr (Nat.cast_nonneg n)
  simp [ofRat, hnn]

theorem ofRat_neg_natCast (n : Nat) (h : 0 < n) : ofRat (-(n : ℚ)) = roundNE true n 1 := by
  have : (-(n : ℚ)) < 0 := by
    have : (0 : ℚ) < n := by exact_mod_cast h
    linarith
  simp [ofRat, this]

theorem ofRat_div (n d : Nat) (hd : 0 < d) (hc : Nat.Coprime n d) :
    ofRat ((n : ℚ) / d) = roundNE false n d := by
  have hnum : ((n : ℚ) / d).num = n := by
    have := Rat.num_div_eq_of_coprime (a := (n : ℤ)) (b := (d : ℤ)) (by exact_mod_cast hd)
      (by simpa using hc)
    simpa using this
  have hden : ((n : ℚ) / d).den = d := by
    have := Rat.den_div_eq_of_coprime (a := (n : ℤ)) (b := (d : ℤ)) (by exact_mod_cast hd)
      (by simpa using hc)
    simpa using this
  have hnn : ¬ ((n : ℚ) / d < 0) := not_lt.mpr (by positivity)
  simp [ofRat, hnum, hden, hnn]

end F64

/-! ## The footprint in float64 arithmetic -/

theorem distances_values :
    ∀ q ∈ distances, ∀ p ∈ q.2, p.2.den = 1 ∧ (0 : ℚ) ≤ p.2 ∧ p.2 < 16384 := by
  simp only [distances, List.forall_mem_cons, List.not_mem_nil, false_implies, implies_true,
    and_true]
  norm_num

theorem estimateDistance_value (src dst : String) :
    (estimateDistance src dst).den = 1 ∧ (0 : ℚ) ≤ estimateDistance src dst
      ∧ estimateDistance src dst < 16384 := by
  unfold estimateDistance
  split
  · rename_i m hm
    split
    · rename_i d hd
      exact distances_values _ (lookup_some_mem _ _ _ hm) _ (lookup_some_mem _ _ _ hd)
    · norm_num
  · norm_num

set_option exponentiation.threshold 2100 in
theorem estimateDistance64_finite (src dst : String) :
    ∃ m e, estimateDistance64 src dst = .finite false m e := by
  obtain ⟨hden, h0, hlt⟩ := estimateDistance_value src dst
  unfold estimateDistance64 F64.ofRat
  have hneg : decide (estimateDistance src dst < 0) = false := by
    simpa using h0
  rw [hneg, hden]
  apply F64.roundNE_finite
  have hq : ((estimateDistance src dst).num : ℚ) = estimateDistance src dst :=
    Rat.den_eq_one_iff _ |>.mp hden
  have hnum : (estimateDistance src dst).num < 16384 := by
    have : ((estimateDistance src dst).num : ℚ) < 16384 := by rw [hq]; exact hlt
    exact_mod_cast this
  have hnn : 0 ≤ (estimateDistance src dst).num := by
    have : (0 : ℚ) ≤ ((estimateDistance src dst).num : ℚ) := by rw [hq]; exact h0
    exact_mod_cast this
  have hk : (estimateDistance src dst).num.natAbs < 16384 := by omega
  calc (estimateDistance src dst).num.natAbs < 16384 := hk
    _ ≤ 1 * 2 ^ 1023 := by norm_num

theorem formulaSwitch64_nonNeg (req : CalculateRequest64) (factor : F64)
    (hv : ValidRequest64 req) (hf : factor.IsPos) : (formulaSwitch64 req factor).NonNeg := by
  obtain ⟨_, hw, hd, ha⟩ := hv
  have hamount : req.Amount.NonNeg := by
    cases hA : req.Amount with
    | finite s m e => rw [hA] at ha; exact ha.1
    | inf s => rw [hA] at ha; exact absurd ha (by simp [F64.FiniteNonNeg])
    | nan => rw [hA] at ha; exact absurd ha (by simp [F64.FiniteNonNeg])
  unfold formulaSwitch64
  split
  · unfold calculateShipping64
    simp only
    apply F64.mul_nonNeg_of_isPos _ _ _ hf
    cases hW : req.Weight with
    | finite s m e =>
      rw [hW] at hw
      obtain ⟨hs, hm, he⟩ := hw
      obtain ⟨m2, e2, hdiv, hs2⟩ := F64.div_thousand_finite s m e hm he hs
      rw [hdiv]
      split
      · obtain ⟨m3, e3, hest⟩ := estimateDistance64_finite req.From req.To
        rw [hest]
        exact F64.mul_nonNeg_of_finite _ _ _ _ _ _ hs2 (Or.inl rfl)
      · cases hD : req.Distance with
        | finite s3 m3 e3 =>
          rw [hD] at hd
          exact F64.mul_nonNeg_of_finite _ _ _ _ _ _ hs2 hd.1
        | inf s3 => rw [hD] at hd; exact absurd hd (by simp [F64.FiniteNonNeg])
        | nan => rw [hD] at hd; exact absurd hd (by simp [F64.FiniteNonNeg])
    | inf s => rw [hW] at hw; exact absurd hw (by simp [F64.FiniteNonNeg])
    | nan => rw [hW] at hw; exact absurd hw (by simp [F64.FiniteNonNeg])
  · split
    · exact F64.mul_nonNeg_of_isPos _ _ hamount hf
    · split
      · exact F64.mul_nonNeg_of_isPos _ _ hamount hf
      · exact F64.mul_nonNeg_of_isPos _ _ hamount hf

theorem roundToThree_nonNeg (x : F64) (hx : x.NonNeg) : (roundToThree x).NonNeg := by
  unfold roundToThree
  exact F64.div_thousand_nonNeg _
    (F64.round_nonNeg _ (F64.mul_nonNeg_of_isPos _ _ hx F64.thousand_isPos))

theorem roundToThree_rounding (raw : F64) (x : ℚ)
    (hx : (raw.mul F64.thousand).exactValue = some x) :
    ∃ n : ℤ, (F64.round (raw.mul F64.thousand)).exactValue = some (n : ℚ)
      ∧ IsNearestHalfAway x n
      ∧ ∀ s m e, roundToThree raw = .finite s m e →
          |(if s then -1 else 1) * (m : ℚ) * (2 : ℚ) ^ e - (n : ℚ) / 1000| ≤ (2 : ℚ) ^ e / 2 := by
  cases hsc : raw.mul F64.thousand with
  | finite s0 m0 e0 =>
    rw [hsc] at hx
    obtain ⟨n, hn, hnear⟩ := F64.round_nearest s0 m0 e0
    refine ⟨n, hn, hnear x hx, ?_⟩
    intro s m e hcf
    unfold roundToThree at hcf
    rw [hsc] at hcf
    have hshape : ∃ mr er, F64.round (.finite s0 m0 e0) = .finite s0 mr er := by
      rw [F64.round_finite]
      split
      · exact ⟨_, _, rfl⟩
      · exact ⟨_, _, rfl⟩
    obtain ⟨mr, er, hr⟩ := hshape
    rw [hr] at hcf hn
    obtain ⟨hs, herr⟩ := F64.div_thousand_error s0 mr er s m e hcf
    simp only [F64.exactValue, Option.some.injEq] at hn
    rw [← hn, hs]
    cases s0 with
    | false =>
      simp only [Bool.false_eq_true, if_false, one_mul]
      exact herr
    | true =>
      simp only [if_true, neg_mul, one_mul]
      rw [neg_div, ← neg_sub', abs_neg]
      exact herr
  | inf s0 => rw [hsc] at hx; simp [F64.exactValue] at hx
  | nan => rw [hsc] at hx; simp [F64.exactValue] at hx

theorem calculateCarbonFootprint64_of_factor (cs : CarbonService) (rnd : Nat)
    (req : CalculateRequest64) (factor : EmissionFactor)
    (h : getEmissionFactor cs rnd req.Activity req.Transport = .ok factor) :
    calculateCarbonFootprint64 cs rnd req
      = .ok (roundToThree (formulaSwitch64 req (F64.ofRat factor.Factor))) := by
  simp [calculateCarbonFootprint64, h]

set_option exponentiation.threshold 2100 in
theorem ofRat_one : F64.ofRat 1.0 = .finite false 4503599627370496 (-52) := by
  rw [show (1.0 : ℚ) = ((1 : ℕ) : ℚ) by norm_num, F64.ofRat_natCast]
  decide

set_option exponentiation.threshold 2100 in
theorem ofRat_neg_one : F64.ofRat (-1) = .finite true 4503599627370496 (-52) := by
  rw [show (-1 : ℚ) = -((1 : ℕ) : ℚ) by norm_num, F64.ofRat_neg_natCast _ (by norm_num)]
  decide

theorem getEmissionFactor_negativeRow (rnd : Nat) :
    getEmissionFactor ⟨rowsDB [negativeRow]⟩ rnd "commute" "car" = .ok negativeRow := by
  simp [getEmissionFactor, rowsDB, negativeRow, List.find?]

set_option exponentiation.threshold 2100 in
theorem validRequest64_commute1001 : ValidRequest64 commute1001 := by
  refine ⟨by decide, ?_, ?_, ?_⟩
  · exact ⟨Or.inl rfl, by norm_num, by norm_num⟩
  · exact ⟨Or.inl rfl, by norm_num, by norm_num⟩
  · have h : commute1001.Amount = .finite false 4508103226997866 (-52) := by decide
    rw [h]
    exact ⟨Or.inl rfl, by norm_num, by norm_num⟩

set_option exponentiation.threshold 2100 in
theorem validRequest64_commuteCar64 : ValidRequest64 commuteCar64 := by
  refine ⟨by decide, ?_, ?_, ?_⟩
  · exact ⟨Or.inl rfl, by norm_num, by norm_num⟩
  · exact ⟨Or.inl rfl, by norm_num, by norm_num⟩
  · have h : commuteCar64.Amount = .finite false 4503599627370496 (-52) := by decide
    rw [h]
    exact ⟨Or.inl rfl, by norm_num, by norm_num⟩

set_option exponentiation.threshold 2100 in
theorem footprint64_commute1001 :
    calculateCarbonFootprint64 ⟨unavailableDB⟩ 0 commute1001
      = .ok (.finite false 4508103226997866 (-52)) := by
  rw [calculateCarbonFootprint64_of_factor _ _ _ _ (getEmissionFactor_unavailable 0 _ _)]
  have hf : (getDefaultEmissionFactor 0 commute1001.Activity commute1001.Transport).Factor
      = 1.0 := by
    simp [getDefaultEmissionFactor, defaultFactors, List.lookup, commute1001, ultimateFallback]
  rw [hf, ofRat_one]
  have h : roundToThree (formulaSwitch64 commute1001 (.finite false 4503599627370496 (-52)))
      = .finite false 4508103226997866 (-52) := by decide
  rw [h]

set_option exponentiation.threshold 2100 in
theorem footprint64_commuteCar64 :
    calculateCarbonFootprint64 ⟨rowsDB [negativeRow]⟩ 0 commuteCar64
      = .ok (.finite true 4503599627370496 (-52)) := by
  rw [calculateCarbonFootprint64_of_factor _ _ _ _ (getEmissionFactor_negativeRow 0)]
  have hf : negativeRow.Factor = -1 := rfl
  rw [hf, ofRat_neg_one]
  have h : roundToThree (formulaSwitch64 commuteCar64 (.finite true 4503599627370496 (-52)))
      = .finite true 4503599627370496 (-52) := by decide
  rw [h]

theorem ofRat_zero : F64.ofRat 0 = .finite false 0 0 := by
  simp [F64.ofRat, F64.roundNE]

theorem getEmissionFactor_zeroRow (rnd : Nat) :
    getEmissionFactor ⟨rowsDB [zeroRow]⟩ rnd "shipping" "pipeline" = .ok zeroRow := by
  simp [getEmissionFactor, rowsDB, zeroRow, List.find?]

set_option exponentiation.threshold 2100 in
theorem validRequest64_shippingHuge64 : ValidRequest64 shippingHuge64 := by
  have h : F64.ofDecimal false 1 308 = .finite false 5010420900022432 971 := by decide
  refine ⟨by decide, ?_, ?_, ?_⟩
  · show (F64.ofDecimal false 1 308).FiniteNonNeg
    rw [h]
    exact ⟨Or.inl rfl, by norm_num, by norm_num⟩
  · show (F64.ofDecimal false 1 308).FiniteNonNeg
    rw [h]
    exact ⟨Or.inl rfl, by norm_num, by norm_num⟩
  · exact ⟨Or.inl rfl, by norm_num, by norm_num⟩

set_option exponentiation.threshold 2100 in
theorem footprint64_shippingHuge64 :
    calculateCarbonFootprint64 ⟨rowsDB [zeroRow]⟩ 0 shippingHuge64 = .ok .nan := by
  rw [calculateCarbonFootprint64_of_factor _ _ _ _ (getEmissionFactor_zeroRow 0)]
  have hf : zeroRow.Factor = 0 := rfl
  rw [hf, ofRat_zero]
  have h : roundToThree (formulaSwitch64 shippingHuge64 (.finite false 0 0)) = .nan := by
    decide
  rw [h]

set_option exponentiation.threshold 2100 in
theorem footprint64_fuelHuge64 :
    calculateCarbonFootprint64 ⟨unavailableDB⟩ 0 fuelHuge64 = .ok (.inf false) := by
  rw [calculateCarbonFootprint64_of_factor _ _ _ _ (getEmissionFactor_unavailable 0 _ _)]
  have hf : (getDefaultEmissionFactor 0 fuelHuge64.Activity fuelHuge64.Transport).Factor
      = 2.68 := by
    simp [getDefaultEmissionFactor, defaultFactors, List.lookup, fuelHuge64]
  rw [hf, show (2.68 : ℚ) = ((67 : ℕ) : ℚ) / (25 : ℕ) by norm_num,
    F64.ofRat_div _ _ (by norm_num) (by norm_num)]
  have h : roundToThree (formulaSwitch64 fuelHuge64 (F64.roundNE false 67 25))
      = .inf false := by decide
  rw [h]

set_option exponentiation.threshold 2100 in
/-- C3, as stated, fails in the float64 arithmetic of the code.  The valid request
with activity commute and amount 1.001 (factor source unavailable, default factor 1)
gets the CarbonFootprint 1.001, the float64 `4508103226997866 * 2^-52`; its product
with 1000 is the float64 `8804889115230207 * 2^-43`, just below 1001, and neither
that float64 nor the exact product is an integer.  With a stored row whose factor is
-1, the valid request commute by car with amount 1 gets the CarbonFootprint -1.  With
a stored row whose factor is 0, the valid shipping request with weight and distance
1e308 gets the CarbonFootprint NaN, which is not `>= 0`. -/
theorem C3_counterexample :
    (ValidRequest64 commute1001
      ∧ calculateCarbonFootprint64 ⟨unavailableDB⟩ 0 commute1001
          = .ok (.finite false 4508103226997866 (-52))
      ∧ (F64.finite false 4508103226997866 (-52)).mul F64.thousand
          = .finite false 8804889115230207 (-43)
      ∧ (∀ n : ℤ, (F64.finite false 8804889115230207 (-43)).exactValue ≠ some (n : ℚ))
      ∧ (∀ n : ℤ, ∀ c, (F64.finite false 4508103226997866 (-52)).exactValue = some c →
          c * 1000 ≠ (n : ℚ)))
    ∧ (ValidRequest64 commuteCar64
      ∧ calculateCarbonFootprint64 ⟨rowsDB [negativeRow]⟩ 0 commuteCar64
          = .ok (.finite true 4503599627370496 (-52))
      ∧ (F64.finite true 4503599627370496 (-52)).exactValue = some (-1)
      ∧ ¬ (F64.finite true 4503599627370496 (-52)).NonNeg)
    ∧ (ValidRequest64 shippingHuge64
      ∧ calculateCarbonFootprint64 ⟨rowsDB [zeroRow]⟩ 0 shippingHuge64 = .ok .nan
      ∧ ¬ F64.nan.NonNeg) := by
  refine ⟨⟨validRequest64_commute1001, footprint64_commute1001, by decide, ?_, ?_⟩,
    ⟨validRequest64_commuteCar64, footprint64_commuteCar64, ?_, ?_⟩,
    validRequest64_shippingHuge64, footprint64_shippingHuge64, by simp [F64.NonNeg]⟩
  · intro n h
    simp only [F64.exactValue, Bool.false_eq_true, if_false, one_mul, Option.some.injEq] at h
    have h2 : ((8804889115230207 : ℤ) : ℚ) = ((n * 2 ^ 43 : ℤ) : ℚ) := by
      push_cast
      rw [← h, zpow_neg]
      norm_num
    have h3 : (8804889115230207 : ℤ) = n * 2 ^ 43 := by exact_mod_cast h2
    omega
  · intro n c hc h
    simp only [F64.exactValue, Bool.false_eq_true, if_false, one_mul, Option.some.injEq] at hc
    have h2 : ((4508103226997866 * 1000 : ℤ) : ℚ) = ((n * 2 ^ 52 : ℤ) : ℚ) := by
      push_cast
      rw [← h, ← hc, zpow_neg]
      norm_num
    have h3 : (4508103226997866 * 1000 : ℤ) = n * 2 ^ 52 := by exact_mod_cast h2
    omega
  · simp only [F64.exactValue, if_true, zpow_neg]
    norm_num
  · simp [F64.NonNeg]

set_option exponentiation.threshold 2100 in
theorem defaultFactors_isPos :
    ∀ q ∈ defaultFactors, ∀ p ∈ q.2, (F64.ofRat p.2.Factor).IsPos := by
  simp only [defaultFactors, List.forall_mem_cons, List.not_mem_nil, false_implies,
    implies_true, and_true]
  refine ⟨⟨?_, ?_, ?_, ?_⟩, ⟨?_, ?_, ?_⟩, ?_, ?_, ?_⟩
  · rw [show (0.996 : ℚ) = ((249 : ℕ) : ℚ) / (250 : ℕ) by norm_num,
      F64.ofRat_div _ _ (by norm_num) (by norm_num),
      show F64.roundNE false 249 250 = .finite false 8971170457722028 (-53) by decide]
    exact ⟨rfl, by norm_num⟩
  · rw [show (0.015 : ℚ) = ((3 : ℕ) : ℚ) / (200 : ℕ) by norm_num,
      F64.ofRat_div _ _ (by norm_num) (by norm_num),
      show F64.roundNE false 3 200 = .finite false 8646911284551352 (-59) by decide]
    exact ⟨rfl, by norm_num⟩
  · rw [show (0.209 : ℚ) = ((209 : ℕ) : ℚ) / (1000 : ℕ) by norm_num,
      F64.ofRat_div _ _ (by norm_num) (by norm_num),
      show F64.roundNE false 209 1000 = .finite false 7530018576963469 (-55) by decide]
    exact ⟨rfl, by norm_num⟩
  · rw [show (0.028 : ℚ) = ((7 : ℕ) : ℚ) / (250 : ℕ) by norm_num,
      F64.ofRat_div _ _ (by norm_num) (by norm_num),
      show F64.roundNE false 7 250 = .finite false 8070450532247929 (-58) by decide]
    exact ⟨rfl, by norm_num⟩
  · rw [show (0.525 : ℚ) = ((21 : ℕ) : ℚ) / (40 : ℕ) by norm_num,
      F64.ofRat_div _ _ (by norm_num) (by norm_num),
      show F64.roundNE false 21 40 = .finite false 4728779608739021 (-53) by decide]
    exact ⟨rfl, by norm_num⟩
  · rw [show (0.041 : ℚ) = ((41 : ℕ) : ℚ) / (1000 : ℕ) by norm_num,
      F64.ofRat_div _ _ (by norm_num) (by norm_num),
      show F64.roundNE false 41 1000 = .finite false 5908722711110091 (-57) by decide]
    exact ⟨rfl, by norm_num⟩
  · rw [show (0.011 : ℚ) = ((11 : ℕ) : ℚ) / (1000 : ℕ) by norm_num,
      F64.ofRat_div _ _ (by norm_num) (by norm_num),
      show F64.roundNE false 11 1000 = .finite false 6341068275337658 (-59) by decide]
    exact ⟨rfl, by norm_num⟩
  · rw [show (2.31 : ℚ) = ((231 : ℕ) : ℚ) / (100 : ℕ) by norm_num,
      F64.ofRat_div _ _ (by norm_num) (by norm_num),
      show F64.roundNE false 231 100 = .finite false 5201657569612923 (-51) by decide]
    exact ⟨rfl, by norm_num⟩
  · rw [show (2.68 : ℚ) = ((67 : ℕ) : ℚ) / (25 : ℕ) by norm_num,
      F64.ofRat_div _ _ (by norm_num) (by norm_num),
      show F64.roundNE false 67 25 = .finite false 6034823500676465 (-51) by decide]
    exact ⟨rfl, by norm_num⟩
  · rw [show (0.202 : ℚ) = ((101 : ℕ) : ℚ) / (500 : ℕ) by norm_num,
      F64.ofRat_div _ _ (by norm_num) (by norm_num),
      show F64.roundNE false 101 500 = .finite false 7277816997830722 (-55) by decide]
    exact ⟨rfl, by norm_num⟩

theorem getDefaultEmissionFactor_isPos (rnd : Nat) (activity transport : String) :
    (F64.ofRat (getDefaultEmissionFactor rnd activity transport).Factor).IsPos := by
  have hfb : (F64.ofRat (ultimateFallback activity transport).Factor).IsPos := by
    show (F64.ofRat 1.0).IsPos
    rw [ofRat_one]
    exact ⟨rfl, by norm_num⟩
  unfold getDefaultEmissionFactor
  split
  · rename_i tbl htbl
    have hq := defaultFactors_isPos _ (lookup_some_mem _ _ _ htbl)
    split
    · rename_i f hf
      exact hq _ (lookup_some_mem _ _ _ hf)
    · split
      · rename_i f hf
        obtain ⟨k, hk⟩ := rangeFirst_mem _ _ _ hf
        exact hq _ hk
      · exact hfb
  · exact hfb

/-- C3, amended to the float64 arithmetic of the code: for every request, every
state of the factor source and every enumeration order the call succeeds and the
CarbonFootprint is the float64 quotient by 1000 of `R = math.Round(raw * 1000)`, with
the product taken in float64.  When that product is finite, `R` is an integer, the
nearest to the product with halves away from zero, and a finite CarbonFootprint
differs from `R / 1000` by at most half a unit of its last place; its product with
1000 need not be an integer.  For a valid request (activity given; weight, distance
and amount finite and not negative) and a resolved factor that is finite and
positive, the CarbonFootprint is not negative: it is never below zero and never
NaN.  The resolved factor is finite and positive whenever the query ends in an
error, so that it comes from the default table. -/
theorem C3_float64_footprint (cs : CarbonService) (rnd : Nat) (req : CalculateRequest64) :
    ∃ factor, getEmissionFactor cs rnd req.Activity req.Transport = .ok factor
      ∧ calculateCarbonFootprint64 cs rnd req
          = .ok (roundToThree (formulaSwitch64 req (F64.ofRat factor.Factor)))
      ∧ (∀ x,
          ((formulaSwitch64 req (F64.ofRat factor.Factor)).mul F64.thousand).exactValue
            = some x →
          ∃ n : ℤ,
            (F64.round
                ((formulaSwitch64 req (F64.ofRat factor.Factor)).mul F64.thousand)).exactValue
              = some (n : ℚ)
            ∧ IsNearestHalfAway x n
            ∧ ∀ s m e,
                roundToThree (formulaSwitch64 req (F64.ofRat factor.Factor))
                  = .finite s m e →
                |(if s then -1 else 1) * (m : ℚ) * (2 : ℚ) ^ e - (n : ℚ) / 1000|
                  ≤ (2 : ℚ) ^ e / 2)
      ∧ (ValidRequest64 req → (F64.ofRat factor.Factor).IsPos →
          (roundToThree (formulaSwitch64 req (F64.ofRat factor.Factor))).NonNeg)
      ∧ (∀ err,
          cs.db.queryRowScan (issuedQuery req.Transport)
              (issuedArgs req.Activity req.Transport) = .error err →
          (F64.ofRat factor.Factor).IsPos) := by
  obtain ⟨factor, hf⟩ := getEmissionFactor_ok cs rnd req.Activity req.Transport
  refine ⟨factor, hf, calculateCarbonFootprint64_of_factor cs rnd req factor hf,
    fun x hx => roundToThree_rounding _ x hx,
    fun hv hp => roundToThree_nonNeg _ (formulaSwitch64_nonNeg req _ hv hp), ?_⟩
  intro err herr
  rw [getEmissionFactor_eq, herr] at hf
  have h4 := Except.ok.inj hf
  rw [← h4]
  exact getDefaultEmissionFactor_isPos rnd _ _

set_option exponentiation.threshold 2100 in
/-- The hypotheses of the amended C3 are met by the request with activity commute
and amount 1.001 with the factor source unavailable: the request is valid, the query
ends in an error so that the factor is finite and positive, the float64 product with
1000 is finite, and the CarbonFootprint is the finite float64
`4508103226997866 * 2^-52`, which is not negative. -/
theorem C3_float64_footprint_witness :
    ValidRequest64 commute1001
    ∧ unavailableDB.queryRowScan (issuedQuery commute1001.Transport)
        (issuedArgs commute1001.Activity commute1001.Transport) = .error "connection refused"
    ∧ (F64.finite false 4508103226997866 (-52)).NonNeg
    ∧ ∃ n : ℤ,
        IsNearestHalfAway ((8804889115230207 : ℚ) * (2 : ℚ) ^ (-43 : ℤ)) n
        ∧ |(4508103226997866 : ℚ) * (2 : ℚ) ^ (-52 : ℤ) - (n : ℚ) / 1000|
            ≤ (2 : ℚ) ^ (-52 : ℤ) / 2 := by
  obtain ⟨factor, hf, _, hround, hnn, hpos⟩ :=
    C3_float64_footprint ⟨unavailableDB⟩ 0 commute1001
  have hp := hpos "connection refused" rfl
  have hfac : factor.Factor = 1.0 := by
    have h2 : getEmissionFactor ⟨unavailableDB⟩ 0 commute1001.Activity commute1001.Transport
        = .ok (getDefaultEmissionFactor 0 commute1001.Activity commute1001.Transport) :=
      getEmissionFactor_unavailable 0 _ _
    rw [hf] at h2
    have h4 := Except.ok.inj h2
    rw [h4]
    simp [getDefaultEmissionFactor, defaultFactors, List.lookup, commute1001, ultimateFallback]
  have hnn2 := hnn validRequest64_commute1001 hp
  rw [hfac, ofRat_one] at hround hnn2
  have hraw : formulaSwitch64 commute1001 (.finite false 4503599627370496 (-52))
      = .finite false 4508103226997866 (-52) := by decide
  have hscaled : (F64.finite false 4508103226997866 (-52)).mul F64.thousand
      = .finite false 8804889115230207 (-43) := by decide
  have hcf : roundToThree (.finite false 4508103226997866 (-52))
      = .finite false 4508103226997866 (-52) := by decide
  rw [hraw] at hround hnn2
  rw [hscaled] at hround
  rw [hcf] at hnn2
  obtain ⟨n, _, hnear, herr⟩ := hround ((8804889115230207 : ℚ) * (2 : ℚ) ^ (-43 : ℤ))
    (by simp [F64.exactValue])
  have herr2 := herr false 4508103226997866 (-52) hcf
  simp only [Bool.false_eq_true, if_false, one_mul] at herr2
  exact ⟨validRequest64_commute1001, rfl, hnn2, n, hnear, by exact_mod_cast herr2⟩

end CarbonAPI
